import Mathlib

/-!
Verification development for the VEIL audio-to-structure pipeline
(src/MapDNA.js, src/modes/NeuralMap.js, src/modes/NeuralGalaxy.js).

Modelling conventions, used consistently below:

* JS numbers are modelled as exact rationals (ℚ); decimal literals of the
  source are taken at face value (0.5 = 1/2, 0.012 = 12/1000, ...).
* 32-bit integer operations of JS (`| 0`, `Math.imul`, `^`, `>>> k`,
  `>>> 0`) are modelled exactly on ℤ with explicit reduction modulo 2^32.
* `Math.sin`, `Math.cos`, `Math.sqrt`, `Math.atan2`, `Math.exp` are taken
  as function parameters (arbitrary functions on ℚ): every universally
  quantified theorem below therefore holds in particular for the actual
  IEEE-754 implementations of those functions.
* JS `NaN` is modelled by `Option ℚ`: `none` is NaN.  The only NaN source
  inside the modelled code is the division `zeroCrossings / data.length`
  (`0/0`) in `extractDominantFrequency` when a slice is empty; `Option`
  values propagate through arithmetic (`Option.map`, `Option.map₂`) and
  every comparison with `none` is `false`, exactly as `NaN < c` in JS.
* JS strings (seed / hash strings) are modelled as their lists of
  char codes, exactly what `charCodeAt` iterates over.
-/

/-! ### JS 32-bit integer primitives -/

/-- JS `x >>> 0` (ToUint32) on an integer: reduce modulo 2^32 into [0, 2^32). -/
def toUint32 (n : ℤ) : ℤ := n % 4294967296

/-- JS `x | 0` (ToInt32): reduce modulo 2^32 into [-2^31, 2^31). -/
def toInt32 (n : ℤ) : ℤ :=
  let r := n % 4294967296
  if r < 2147483648 then r else r - 4294967296

/-- JS `Math.imul a b`: 32-bit integer multiplication. -/
def jsImul (a b : ℤ) : ℤ := toInt32 (a * b)

/-- JS `a ^ b` on 32-bit integers: bitwise xor of the two's-complement images. -/
def xor32 (a b : ℤ) : ℤ :=
  toInt32 ((((toUint32 a).toNat ^^^ (toUint32 b).toNat : ℕ) : ℤ))

/-- JS `a >>> k`: unsigned right shift, result is a non-negative 32-bit value. -/
def ushr32 (a : ℤ) (k : ℕ) : ℤ := (((toUint32 a).toNat >>> k : ℕ) : ℤ)

/-- JS truncation (`ToInteger` as used by `%`): round toward zero. -/
def jsTrunc (q : ℚ) : ℤ := if 0 ≤ q then ⌊q⌋ else ⌈q⌉

/-- JS remainder `a % b` (for the finite, non-zero-divisor uses in this code). -/
def jsMod (a b : ℚ) : ℚ := a - b * ((jsTrunc (a / b) : ℤ) : ℚ)

/-- `THREE.MathUtils.clamp value lo hi = Math.max(lo, Math.min(hi, value))`. -/
def clampQ (x lo hi : ℚ) : ℚ := max lo (min hi x)

/-- `THREE.MathUtils.lerp x y t = (1 - t) * x + t * y`. -/
def lerpQ (x y t : ℚ) : ℚ := (1 - t) * x + t * y

/-- The exact rational value of the IEEE-754 double `Math.PI`. -/
def jsPI : ℚ := 884279719003555 / 281474976710656

/-! ### The seeded PRNG shared by MapDNA.js and NeuralMap.js

`seededRandom(seed)` folds the seed string's char codes by
`h = (Math.imul(31, h) + seed.charCodeAt(i)) | 0` starting from 0; each
draw then steps `h = (Math.imul(1664525, h) + 1013904223) | 0` and yields
`(h >>> 0) / 4294967296`. -/

/-- Initial PRNG state from a seed string (list of char codes). -/
def seedFold (codes : List ℕ) : ℤ :=
  codes.foldl (fun h c => toInt32 (jsImul 31 h + (c : ℤ))) 0

/-- One LCG step of the PRNG state. -/
def lcgNext (h : ℤ) : ℤ := toInt32 (jsImul 1664525 h + 1013904223)

/-- The float value exposed for a (just stepped) PRNG state: `(h >>> 0) / 2^32`. -/
def randVal (h : ℤ) : ℚ := ((toUint32 h : ℤ) : ℚ) / 4294967296

/-- Iterated LCG stepping (state after n draws). -/
def lcgIter (n : ℕ) (h : ℤ) : ℤ := lcgNext^[n] h

/-- Char codes of the fallback seed literal `'seed'` used by `audioHash || 'seed'`. -/
def seedLiteral : List ℕ := [115, 101, 101, 100]

/-! ### A generic accumulator lemma for the indexed build loops

All build loops below have the shape `for (i = 0; i < n; i++) { use state;
advance state; push an element }`; they are modelled as `List.foldl` over
`List.range n` with a `(state, output list)` accumulator.  `stIter` names
the state after the first `i` iterations, and `stFoldEq` rewrites such a
fold into an index-to-element map, which the per-index theorems use. -/

/-- State after the first `n` iterations of an indexed loop. -/
def stIter {σ : Type} (f : σ → ℕ → σ) (s0 : σ) : ℕ → σ
  | 0 => s0
  | n + 1 => f (stIter f s0 n) n

/-! ### MapDNA.js — headless structure generator -/

/-- A structure node as produced by `buildMapDataFromAudio` (and, identically
shaped, by `NeuralMap.exportNetwork`).  `py` (the y coordinate) and `freq`
are `Option ℚ` because they are NaN whenever the node's slice is empty. -/
structure MapNode where
  id : ℕ
  px : ℚ
  py : Option ℚ
  pz : ℚ
  freq : Option ℚ
  amp : ℚ
  hue : ℚ
  connections : List ℕ
deriving DecidableEq, Inhabited, Repr

/-- MapDNA.js `maxAbs`: loop `if (v > m) m = v` over absolute values, from 0. -/
def maxAbsLoop (l : List ℚ) : ℚ :=
  l.foldl (fun m v => if |v| > m then |v| else m) 0

/-- NeuralMap.js `maxAbs`: `arr.reduce((m, v) => Math.max(m, Math.abs(v)), 0)`. -/
def maxAbsReduce (l : List ℚ) : ℚ :=
  l.foldl (fun m v => max m |v|) 0

/-- Count of sign changes between consecutive samples (`(data[i-1] >= 0) !== (data[i] >= 0)`). -/
def zeroCrossings : List ℚ → ℕ
  | [] => 0
  | [_] => 0
  | a :: b :: rest =>
      (if (decide (0 ≤ a)) ≠ (decide (0 ≤ b)) then 1 else 0) + zeroCrossings (b :: rest)

/-- `extractDominantFrequency` (textually identical in MapDNA.js and
NeuralMap.js): `zeroCrossings / data.length`.  On an empty slice this is the
JS division `0 / 0 = NaN`, modelled as `none`. -/
def extractDominantFrequency (data : List ℚ) : Option ℚ :=
  if data.length = 0 then none
  else some ((zeroCrossings data : ℚ) / (data.length : ℚ))

/-- MapDNA.js slice of node `i`: `data.subarray(i*step, Math.min(data.length, (i+1)*step))`. -/
def dnaSlice (samples : List ℚ) (step i : ℕ) : List ℚ :=
  (samples.drop (i * step)).take (min samples.length ((i + 1) * step) - i * step)

/-- NeuralMap.js slice of node `i`: `data.slice(i*step, (i+1)*step)`
(JS `slice` clamps the end bound to the array length). -/
def netSlice (samples : List ℚ) (step i : ℕ) : List ℚ :=
  (samples.drop (i * step)).take ((i + 1) * step - i * step)

/-- `Math.max(50, Math.min(200, Math.floor(duration * 10)))` as an integer. -/
def dnaNodeCountZ (duration : ℚ) : ℤ := max 50 (min 200 ⌊duration * 10⌋)

/-- Node count as a natural number (the integer is always ≥ 50). -/
def dnaNodeCount (duration : ℚ) : ℕ := (dnaNodeCountZ duration).toNat

/-- `Math.max(1, Math.floor(data.length / nodeCount))`. -/
def dnaStep (len nodeCount : ℕ) : ℕ := max 1 (len / nodeCount)

section BuildGenerators

variable (jsin jcos jsqrt : ℚ → ℚ)

/-- One node of the MapDNA.js node loop, threading the PRNG state: two draws
(one inside `x`, one inside `z`), then the node record.  NaN `freq` makes the
y coordinate NaN as well (`Math.sin(NaN) = NaN`). -/
def mkDnaNode (samples : List ℚ) (nodeCount step : ℕ) (h : ℤ) (i : ℕ) : ℤ × MapNode :=
  let slice := dnaSlice samples step i
  let amp := maxAbsLoop slice
  let freq := extractDominantFrequency slice
  let h1 := lcgNext h
  let r1 := randVal h1
  let h2 := lcgNext h1
  let r2 := randVal h2
  let x := ((i : ℚ) / (nodeCount : ℚ) - 1/2) * 40 + (r1 - 1/2) * 10
  let y := freq.map (fun f => (amp - 1/2) * 80 + jsin (f * (1/10)) * 20)
  let z := (r2 - 1/2) * 30 + jcos ((i : ℚ) * (1/1000)) * 10
  let hue := jsMod ((i : ℚ) / (nodeCount : ℚ) + amp) 1
  (h2, { id := i, px := x, py := y, pz := z, freq := freq, amp := amp, hue := hue,
         connections := [] })

/-- The MapDNA.js node loop (`for i in 0..nodeCount`). -/
def dnaNodesPass (samples : List ℚ) (nodeCount step : ℕ) (h0 : ℤ) : ℤ × List MapNode :=
  (List.range nodeCount).foldl
    (fun acc i =>
      ((mkDnaNode jsin jcos samples nodeCount step acc.1 i).1,
       acc.2 ++ [(mkDnaNode jsin jcos samples nodeCount step acc.1 i).2]))
    (h0, [])

/-- One node of the NeuralMap.js node loop — same arithmetic, but with
NeuralMap's own `slice` and `reduce`-style `maxAbs`. -/
def mkNetNode (samples : List ℚ) (nodeCount step : ℕ) (h : ℤ) (i : ℕ) : ℤ × MapNode :=
  let slice := netSlice samples step i
  let amp := maxAbsReduce slice
  let freq := extractDominantFrequency slice
  let h1 := lcgNext h
  let r1 := randVal h1
  let h2 := lcgNext h1
  let r2 := randVal h2
  let x := ((i : ℚ) / (nodeCount : ℚ) - 1/2) * 40 + (r1 - 1/2) * 10
  let y := freq.map (fun f => (amp - 1/2) * 80 + jsin (f * (1/10)) * 20)
  let z := (r2 - 1/2) * 30 + jcos ((i : ℚ) * (1/1000)) * 10
  let hue := jsMod ((i : ℚ) / (nodeCount : ℚ) + amp) 1
  (h2, { id := i, px := x, py := y, pz := z, freq := freq, amp := amp, hue := hue,
         connections := [] })

/-- The NeuralMap.js node loop. -/
def netNodesPass (samples : List ℚ) (nodeCount step : ℕ) (h0 : ℤ) : ℤ × List MapNode :=
  (List.range nodeCount).foldl
    (fun acc i =>
      ((mkNetNode jsin jcos samples nodeCount step acc.1 i).1,
       acc.2 ++ [(mkNetNode jsin jcos samples nodeCount step acc.1 i).2]))
    (h0, [])

/-- Assign a node's `connections` field (JS mutates `nodes[i].connections` in place). -/
def setConnections (n : MapNode) (c : List ℕ) : MapNode :=
  { id := n.id, px := n.px, py := n.py, pz := n.pz, freq := n.freq, amp := n.amp,
    hue := n.hue, connections := c }

/-- `a.position.distanceTo(b.position) < 8`.  `distanceTo` is
`Math.sqrt(dx² + dy² + dz²)`; a NaN y coordinate on either side makes the
distance NaN and the comparison false. -/
def distLt8 (a b : MapNode) : Bool :=
  match a.py, b.py with
  | some ya, some yb =>
      decide (jsqrt ((a.px - b.px) * (a.px - b.px) + (ya - yb) * (ya - yb) +
        (a.pz - b.pz) * (a.pz - b.pz)) < 8)
  | _, _ => false

/-- Inner connection loop for node `i`: for each `j ≠ i`, if
`dist < 8 && rand() < 0.7` push `j` — the PRNG is consumed only when the
distance test passes (JS short-circuit `&&`).  Identical in MapDNA.js
(indexed `for`) and NeuralMap.js (`forEach`). -/
def connRow (nodes : List MapNode) (i : ℕ) (h : ℤ) : ℤ × List ℕ :=
  (List.range nodes.length).foldl
    (fun acc j =>
      if i = j then acc
      else if distLt8 jsqrt (nodes.getD i default) (nodes.getD j default) then
        let h1 := lcgNext acc.1
        if randVal h1 < 7/10 then (h1, acc.2 ++ [j]) else (h1, acc.2)
      else acc)
    (h, [])

/-- Outer connection pass: rebuilds each node with its connection list. -/
def dnaConnPass (nodes : List MapNode) (h : ℤ) : List MapNode :=
  ((List.range nodes.length).foldl
    (fun acc i =>
      ((connRow jsqrt nodes i acc.1).1,
       acc.2 ++ [setConnections (nodes.getD i default) (connRow jsqrt nodes i acc.1).2]))
    (h, [])).2

/-- `buildMapDataFromAudio(audioBuffer, audioHash)` of MapDNA.js, as a function
of the channel-0 samples, the buffer duration and the seed string. -/
def buildMapDataFromAudio (samples : List ℚ) (duration : ℚ) (audioHash : List ℕ) :
    List MapNode :=
  let seed := if audioHash = [] then seedLiteral else audioHash
  let h0 := seedFold seed
  let nodeCount := dnaNodeCount duration
  let step := dnaStep samples.length nodeCount
  let built := dnaNodesPass jsin jcos samples nodeCount step h0
  dnaConnPass jsqrt built.2 built.1

/-- `NeuralMap.buildNetFromAudio` (data content of the meshes it creates):
same pipeline built from NeuralMap.js's own helpers. -/
def buildNetFromAudio (samples : List ℚ) (duration : ℚ) (audioHash : List ℕ) :
    List MapNode :=
  let seed := if audioHash = [] then seedLiteral else audioHash
  let h0 := seedFold seed
  let nodeCount := dnaNodeCount duration
  let step := dnaStep samples.length nodeCount
  let built := netNodesPass jsin jcos samples nodeCount step h0
  dnaConnPass jsqrt built.2 built.1

/-- `NeuralMap.exportNetwork`: map each node/mesh to the plain record
`{id, position.clone(), freq, amp, hue, connections}`. -/
def exportNetwork (nodes : List MapNode) : List MapNode :=
  nodes.map (fun n =>
    { id := n.id, px := n.px, py := n.py, pz := n.pz, freq := n.freq, amp := n.amp,
      hue := n.hue, connections := n.connections })

end BuildGenerators

/-! ### Concrete closed stand-ins for the abstract math-function parameters

Witnesses and counterexamples instantiate the abstract `Math.sin`-style
parameters with these concrete functions. -/

/-- The constant-zero function on ℚ. -/
def zeroFun : ℚ → ℚ := fun _ => 0

/-- The constant-one function on ℚ. -/
def oneFun : ℚ → ℚ := fun _ => 1

/-- A constant function ℚ → ℚ. -/
def constFun (c : ℚ) : ℚ → ℚ := fun _ => c

/-- A constant two-argument function (stand-in for `Math.atan2`). -/
def constFun2 (c : ℚ) : ℚ → ℚ → ℚ := fun _ _ => c

/-! ### NeuralGalaxy.js — AudioFeatures (feature extractor)

Configuration values are the `DEFAULTS` of NeuralGalaxy.js merged with the
`cinematic` preset (the constructor default), which leaves every `audio` and
`impact` value at its `DEFAULTS` entry: `bassEnd 0.12, lowMidEnd 0.35,
highMidEnd 0.70, envLerp 0.035, envHold 0.965, midPulseHold 0.88,
midPulseIn 0.12, sensGainMin 0.40, sensGainMaxAdd 2.80, bassHitAttack 0.22,
bassHitDecay 0.86`. -/

/-- The persisted scalar state of `AudioFeatures` (constructor zeroes all). -/
structure FeatState where
  prevLowMid : ℚ
  prevBass : ℚ
  bassEnv : ℚ
  trebleEnv : ℚ
  midPulse : ℚ
  bassHit : ℚ
deriving DecidableEq, Repr

/-- `AudioFeatures` state at construction: every scalar is 0. -/
def initFeatState : FeatState :=
  { prevLowMid := 0, prevBass := 0, bassEnv := 0, trebleEnv := 0, midPulse := 0, bassHit := 0 }

/-- The per-frame return value of `AudioFeatures.sample`. -/
structure FeatOut where
  bassBand : ℚ
  lowMidBand : ℚ
  highMidBand : ℚ
  trebleBand : ℚ
  sensGain : ℚ
  pulseScaled : ℚ
  bassEnvOut : ℚ
  trebleEnvOut : ℚ
  bassHitOut : ℚ
  loudness : ℚ
deriving DecidableEq, Repr

/-- The feature frame produced by a silent (all-zero) snapshot at sensitivity 0
from the initial state: every field 0 except `sensGain = 0.40`. -/
def zeroFeatOut : FeatOut :=
  { bassBand := 0, lowMidBand := 0, highMidBand := 0, trebleBand := 0,
    sensGain := 40/100, pulseScaled := 0, bassEnvOut := 0, trebleEnvOut := 0,
    bassHitOut := 0, loudness := 0 }

/-- Mean of a band's bins normalized by 255: `(n ? sum / n : 0) / 255`. -/
def bandVal (bins : List ℕ) : ℚ :=
  (if bins.length = 0 then 0 else ((bins.sum : ℚ) / (bins.length : ℚ))) / 255

/-- `AudioFeatures._computeBands`: partition the snapshot's bins into four
contiguous index bands at `floor(len*0.12)`, `floor(len*0.35)`,
`floor(len*0.70)` and average each band (the loop's `if i < bassEnd ... else`
chain is exactly this index partition). -/
def computeBands (dataArr : List ℕ) : ℚ × ℚ × ℚ × ℚ :=
  let len := dataArr.length
  if len = 0 then (0, 0, 0, 0) else
  let bassEnd := (⌊(len : ℚ) * (12/100)⌋).toNat
  let lowMidEnd := (⌊(len : ℚ) * (35/100)⌋).toNat
  let highMidEnd := (⌊(len : ℚ) * (70/100)⌋).toNat
  let bassBins := dataArr.take bassEnd
  let lowMidBins := (dataArr.drop bassEnd).take (lowMidEnd - bassEnd)
  let highMidBins := (dataArr.drop lowMidEnd).take (highMidEnd - lowMidEnd)
  let trebleBins := dataArr.drop highMidEnd
  (bandVal bassBins, bandVal lowMidBins, bandVal highMidBins, bandVal trebleBins)

/-- `AudioFeatures.sample(sensNorm, cfg)`: one feature-extraction step over a
frequency snapshot, returning the updated persisted state and the returned
frame. -/
def sampleFeatures (s : FeatState) (dataArr : List ℕ) (sensNorm : ℚ) :
    FeatState × FeatOut :=
  let sensGain := (40/100) + sensNorm * (280/100)
  let bands := computeBands dataArr
  let bass := bands.1
  let lowMid := bands.2.1
  let highMid := bands.2.2.1
  let treble := bands.2.2.2
  let dLowMid := lowMid - s.prevLowMid
  let rawPulse := max 0 (dLowMid * 9)
  let midPulse1 := clampQ (s.midPulse * (88/100) + rawPulse * (12/100)) 0 (3/2)
  let pulseScaled := clampQ (midPulse1 * ((65/100) + sensNorm * (135/100))) 0 1
  let bassTarget := clampQ (bass * sensGain) 0 1
  let trebleTarget := clampQ (treble * sensGain) 0 1
  let bassEnv1 := s.bassEnv * (965/1000) + bassTarget * (35/1000)
  let trebleEnv1 := s.trebleEnv * (965/1000) + trebleTarget * (35/1000)
  let dBass := bass - s.prevBass
  let hit := (max 0 dBass) * (10 + sensNorm * 20)
  let bassHit1 := clampQ (s.bassHit * (86/100) + hit * (22/100)) 0 (5/4)
  let loudness := (bass + lowMid + highMid + treble) * (25/100)
  ({ prevLowMid := lowMid, prevBass := bass, bassEnv := bassEnv1, trebleEnv := trebleEnv1,
     midPulse := midPulse1, bassHit := bassHit1 },
   { bassBand := bass, lowMidBand := lowMid, highMidBand := highMid, trebleBand := treble,
     sensGain := sensGain, pulseScaled := pulseScaled,
     bassEnvOut := clampQ bassEnv1 0 1, trebleEnvOut := clampQ trebleEnv1 0 1,
     bassHitOut := bassHit1, loudness := loudness })

/-- Fold `AudioFeatures.sample` over a sequence of (snapshot, sensitivity)
updates starting from the freshly constructed state. -/
def runFeatures (inputs : List (List ℕ × ℚ)) : FeatState :=
  inputs.foldl (fun s inp => (sampleFeatures s inp.1 inp.2).1) initFeatState

/-- A valid update: every bin of the snapshot is a byte value (0-255) and the
sensitivity scalar lies in [0,1]. -/
def ValidInput (inp : List ℕ × ℚ) : Prop :=
  (∀ b ∈ inp.1, b ≤ 255) ∧ 0 ≤ inp.2 ∧ inp.2 ≤ 1

/-- Invariant of the persisted `AudioFeatures` state: previous band values and
envelopes in [0,1], `midPulse` in [0,1.5], `bassHit` in [0,1.25]. -/
def FeatInv (s : FeatState) : Prop :=
  0 ≤ s.prevLowMid ∧ s.prevLowMid ≤ 1 ∧ 0 ≤ s.prevBass ∧ s.prevBass ≤ 1 ∧
  0 ≤ s.bassEnv ∧ s.bassEnv ≤ 1 ∧ 0 ≤ s.trebleEnv ∧ s.trebleEnv ≤ 1 ∧
  0 ≤ s.midPulse ∧ s.midPulse ≤ 3/2 ∧ 0 ≤ s.bassHit ∧ s.bassHit ≤ 5/4

/-! ### NeuralGalaxy.js — logistic zone blending (updateStars lines 939-964) -/

/-- `NeuralGalaxy._sigmoid(x) = 1 / (1 + Math.exp(-x))`, with `Math.exp`
abstracted as `jexp`. -/
def sigmoidQ (jexp : ℚ → ℚ) (x : ℚ) : ℚ := 1 / (1 + jexp (-x))

/-- `NeuralGalaxy._logisticWindow(y, a, b, k) = max(0, s1 - s2)`. -/
def logisticWindow (jexp : ℚ → ℚ) (y a b k : ℚ) : ℚ :=
  max 0 (sigmoidQ jexp ((y - a) / k) - sigmoidQ jexp ((y - b) / k))

/-- `bassW = 1.0 - sigmoid((yNorm - bassEdgeN) / k)`. -/
def zwBass (jexp : ℚ → ℚ) (y a k : ℚ) : ℚ := 1 - sigmoidQ jexp ((y - a) / k)

/-- `trebleW = sigmoid((yNorm - trebleEdgeN) / k)`. -/
def zwTreble (jexp : ℚ → ℚ) (y b k : ℚ) : ℚ := sigmoidQ jexp ((y - b) / k)

/-- `sumW = Math.max(1e-6, bassW + midW + trebleW)`. -/
def zwSum (jexp : ℚ → ℚ) (y a b k : ℚ) : ℚ :=
  max (1/1000000) (zwBass jexp y a k + logisticWindow jexp y a b k + zwTreble jexp y b k)

/-- The per-point zone-weight computation of `updateStars`: clamp the blend
configuration (`bassEdge` to [0.02,0.48], `trebleEdge` to [0.52,0.98],
`softness` to [0.015,0.25]), compute the three logistic weights for a
normalized polar position `y`, and normalize by `sumW = max(1e-6, bassW +
midW + trebleW)`.  Returns `(wB, wM, wT)`. -/
def zoneWeights (jexp : ℚ → ℚ) (y bassEdgeRaw trebleEdgeRaw softRaw : ℚ) :
    ℚ × ℚ × ℚ :=
  let a := clampQ bassEdgeRaw (2/100) (48/100)
  let b := clampQ trebleEdgeRaw (52/100) (98/100)
  let k := clampQ softRaw (15/1000) (25/100)
  (zwBass jexp y a k / zwSum jexp y a b k,
   logisticWindow jexp y a b k / zwSum jexp y a b k,
   zwTreble jexp y b k / zwSum jexp y a b k)

/-! ### NeuralGalaxy.js — per-point angular update and arm-lane pull
(updateStars lines 914-1012, restricted to the azimuthal computation) -/

/-- `NeuralGalaxy._hash01(i)`: an FNV-style hash of the song hash's char codes
and the point index, normalized to [0,1). -/
def hash01 (hash : List ℕ) (i : ℕ) : ℚ :=
  let s := if hash = [] then [118, 101, 105, 108] else hash
  let h0 := toInt32 2166136261
  let h1 := s.foldl (fun h c => jsImul (xor32 h (c : ℤ)) 16777619) h0
  let h2 := jsImul (xor32 h1 ((i : ℤ) + 1)) 16777619
  let h3 := xor32 h2 (ushr32 h2 13)
  let h4 := jsImul h3 1274126177
  let h5 := xor32 h4 (ushr32 h4 16)
  ((toUint32 h5 : ℤ) : ℚ) / 4294967296

/-- Number of forward full turns the `while (spiralBase < theta)` loop adds:
the least natural `n` with `spiralBase + 2π·n ≥ theta`. -/
def wrapCount (sb th : ℚ) : ℕ := (Int.ceil ((th - sb) / (2 * jsPI))).toNat

/-- Result of the forward-wrap loop `while (spiralBase < theta) spiralBase += Math.PI * 2`. -/
def wrapForward (sb th : ℚ) : ℚ := sb + 2 * jsPI * (wrapCount sb th : ℚ)

/-- The azimuthal part of one `updateStars` point iteration. -/
structure ArmPullOut where
  theta : ℚ
  spiralBase : ℚ
  spiralBaseW : ℚ
  armAssert : ℚ
  thetaPulled : ℚ

/-- The azimuthal computation of `updateStars` for point `i` of a frame:
carrier tide, zone weights from the normalized y of the base position, spectral
intensity, the pre-pull angle `theta`, the arm-lane target `spiralBase`, its
forward wrap, the clamped pull strength `armAssert`, and the pulled angle
(line 1011's lerp).  Tuning values are the cinematic-merged defaults:
`spiral {danceStrength 0.55, twistStrength 0.35, carrierTide 0.55}`,
`arms {pitch 0.012, tightness 0.72}`, `blend {bassEdge 0.22, trebleEdge 0.78,
softness 0.08}`. -/
def updatePointAngles (jsin jexp jsqrt : ℚ → ℚ) (jatan2 : ℚ → ℚ → ℚ)
    (hash : List ℕ) (F : FeatOut) (sensNorm t0 : ℚ) (fdata : List ℕ)
    (armsCountField : ℕ) (yMin yMax : ℚ) (count : ℕ) (i : ℕ)
    (pbx pby pbz : ℚ) : ArmPullOut :=
  let tide := jsin (t0 * (55/100)) * (6/10) + jsin (t0 * (21/100)) * (4/10)
  let carrier := (55/100) * ((65/100) + (55/100) * sensNorm) * tide
  let midEnergyGlobal :=
    clampQ ((F.lowMidBand * (55/100) + F.highMidBand * (45/100)) * F.sensGain) 0 1
  let armsCount := if armsCountField = 0 then 5 else armsCountField
  let seed := hash01 hash i
  let phase := seed * jsPI * 2
  let yNorm := clampQ ((pby - yMin) / max (1/1000000) (yMax - yMin)) 0 1
  let w := zoneWeights jexp yNorm (22/100) (78/100) (8/100)
  let wB := w.1
  let wM := w.2.1
  let wT := w.2.2
  let fIndex := (⌊((i : ℚ) / (count : ℚ)) * (fdata.length : ℚ)⌋).toNat
  let intensity := ((fdata.getD fIndex 0 : ℕ) : ℚ) / 255
  let rBase := jsqrt (pbx * pbx + pby * pby + pbz * pbz) + 1/1000000
  let theta0 := jatan2 pbz pbx
  let flow := (55/100) * ((35/100) + (65/100) * sensNorm)
  let flowWave := jsin (t0 * (28/100) + rBase * (22/1000) + phase) * ((35/100) + intensity)
  let twistAudio := ((35/100) * F.sensGain) *
    ((wT * F.trebleBand * (9/10)) - (wB * F.bassBand * (45/100))) * ((35/100) + intensity)
  let tideTheta := carrier * (12/100)
  let theta := theta0 + flow * flowWave * (35/100) + twistAudio * (18/100) + tideTheta
  let armId := i % armsCount
  let armAngle := ((armId : ℚ) / (armsCount : ℚ)) * jsPI * 2
  let spiralBase := armAngle + rBase * (12/1000)
  let snapBoost := ((25/100) + (75/100) * midEnergyGlobal) * ((55/100) + (45/100) * sensNorm)
  let armAssert := clampQ
    ((72/100) * snapBoost * ((55/100) + (45/100) * intensity) * ((20/100) + (80/100) * wM)) 0 1
  let sbW := wrapForward spiralBase theta
  { theta := theta, spiralBase := spiralBase, spiralBaseW := sbW, armAssert := armAssert,
    thetaPulled := lerpQ theta sbW armAssert }

/-! ### NeuralGalaxy.js — smoothing caches (claim C9) -/

/-- State relevant to the per-point smoothing caches: the committed base
positions and the two caches (`null` in the constructor). -/
structure GalaxyCacheState where
  basePositions : List (ℚ × ℚ × ℚ)
  phiCache : Option (List ℚ)
  rCache : Option (List ℚ)

/-- Cache state after the NeuralGalaxy constructor: both caches are null. -/
def galaxyInitCaches (base : List (ℚ × ℚ × ℚ)) : GalaxyCacheState :=
  { basePositions := base, phiCache := none, rCache := none }

/-- The cache-sizing step at the top of `updateStars`
(`if (!cache || cache.length !== count) cache = new Float32Array(count)`,
a fresh `Float32Array` is zero-filled). -/
def ensureCache (c : Option (List ℚ)) (count : ℕ) : List ℚ :=
  match c with
  | some l => if l.length = count then l else List.replicate count 0
  | none => List.replicate count 0

/-- The structure-rebuild path `onNewAudio → createGalaxyFromNeuralMap →
_commitStars`: replaces geometry/baselines, does not write `_phiCache` or
`_rCache`. -/
def galaxyRebuild (s : GalaxyCacheState) (newBase : List (ℚ × ℚ × ℚ)) :
    GalaxyCacheState :=
  { basePositions := newBase, phiCache := s.phiCache, rCache := s.rCache }

/-- The caches the deformation loop of the next `updateStars` call reads
(`count = positions.length / 3`). -/
def updateStarsCaches (s : GalaxyCacheState) : List ℚ × List ℚ :=
  let count := s.basePositions.length
  (ensureCache s.phiCache count, ensureCache s.rCache count)

/-- One per-point phi-smoothing step of `updateStars`
(`phi = prevPhi + (phiTarget - prevPhi) * aPhi`), reading the cache value. -/
def phiSmoothStep (prevPhi phiTarget aPhi : ℚ) : ℚ :=
  prevPhi + (phiTarget - prevPhi) * aPhi

/-! ### NeuralGalaxy.js — galaxy builders (claims C5, C10) -/

/-- NaN-propagating comparison `a < c` (false when `a` is NaN). -/
def oltB (a : Option ℚ) (c : ℚ) : Bool :=
  match a with
  | some x => decide (x < c)
  | none => false

/-- A galaxy point: position, base hue and shape tier.  Coordinates and hue
are `Option ℚ` because a NaN node `freq` poisons them in the node-driven
builder. -/
structure GalaxyPoint where
  px : Option ℚ
  py : Option ℚ
  pz : Option ℚ
  baseHue : Option ℚ
  tier : ℚ
deriving DecidableEq, Repr

/-- Output of a galaxy build: chosen arm count and the per-point data
(the RGB conversion `THREE.Color().setHSL` is rendering substrate and is not
part of the structural data modelled here). -/
structure GalaxyOut where
  armsCount : ℕ
  points : List GalaxyPoint
deriving DecidableEq, Repr

/-- `String(n)` as char codes (decimal digits; `String(0) = "0"`). -/
def natDigitsCodes (n : ℕ) : List ℕ :=
  if n = 0 then [48] else ((Nat.digits 10 n).reverse).map (fun d => 48 + d)

/-- `NeuralGalaxy._chooseArmsCount(rand)` with the default config
`countMin 3, countMax 7`: `min + floor(rand() * (max - min + 1))`, consuming
one PRNG draw. -/
def chooseArmsCount (h : ℤ) : ℤ × ℕ :=
  let mn : ℕ := max 1 3
  let mx : ℕ := max mn 7
  let h1 := lcgNext h
  (h1, mn + (⌊randVal h1 * ((mx : ℚ) - (mn : ℚ) + 1)⌋).toNat)

/-- One point of `createNeutralSpiral`'s loop (consumes one PRNG draw in
`ripple`). -/
def mkSpiralPoint (jsin jcos : ℚ → ℚ) (armsCount n : ℕ) (h : ℤ) (i : ℕ) :
    ℤ × GalaxyPoint :=
  let t := (i : ℚ) / (n : ℚ)
  let radius := 50 + t * 200
  let armIdx := ((i % armsCount : ℕ) : ℚ) / (armsCount : ℚ)
  let armAngle := armIdx * jsPI * 2
  let angle := t * jsPI * 6 + armAngle * (35/100)
  let u := clampQ t 0 1
  let phi := (1 - u) * jsPI
  let lat := jsin phi
  let h1 := lcgNext h
  let ripple := jsin (angle * 2) * 10 + (randVal h1 - 1/2) * 6
  let bigR := max (1/1000) (radius + ripple)
  (h1, { px := some (jcos angle * (bigR * lat)), py := some (jcos phi * bigR),
         pz := some (jsin angle * (bigR * lat)),
         baseHue := some (jsMod ((6/10) + t * (4/10)) 1), tier := 1 })

/-- `NeuralGalaxy.createNeutralSpiral(N)`: seed the PRNG from
`songHash || String(N)`, choose the arm count, and build N spiral points whose
shape tier is always 1. -/
def createNeutralSpiral (jsin jcos : ℚ → ℚ) (songHash : List ℕ) (n : ℕ) :
    GalaxyOut :=
  let seed := if songHash = [] then natDigitsCodes n else songHash
  let h0 := seedFold seed
  let arms := chooseArmsCount h0
  let pts := (List.range n).foldl
    (fun acc i =>
      ((mkSpiralPoint jsin jcos arms.2 n acc.1 i).1,
       acc.2 ++ [(mkSpiralPoint jsin jcos arms.2 n acc.1 i).2]))
    (arms.1, [])
  { armsCount := arms.2, points := pts.2 }

/-- One point of `createGalaxyFromNeuralMap`'s main loop (node-driven; consumes
two PRNG draws; NaN freq propagates through `Option`).  `node.amp ?? 0.2` and
`node.freq ?? 0.1` never see `null` on generator-produced nodes (`??` does not
replace NaN), and `node.hue ?? (i / N)` likewise, so they reduce to the node's
fields. -/
def mkGalaxyMainPoint (jsin jcos jsqrt : ℚ → ℚ) (dataList : List MapNode)
    (armsCount n : ℕ) (h : ℤ) (i : ℕ) : ℤ × GalaxyPoint :=
  let node := dataList.getD (i % dataList.length) default
  let amp := node.amp
  let freq := node.freq
  let hue := jsMod node.hue 1
  let armIdx := ((i % armsCount : ℕ) : ℚ) / (armsCount : ℚ)
  let armAngle := armIdx * jsPI * 2
  let t := (i : ℚ) / (n : ℚ)
  let posLen : Option ℚ :=
    node.py.map (fun y => jsqrt (node.px * node.px + y * y + node.pz * node.pz))
  let h1 := lcgNext h
  let radiusBase := posLen.map (fun L => L * (14/10) + amp * 90 + randVal h1 * 20)
  let swirl := freq.map (fun f => (t * 7 + f * (15/10)) * jsPI)
  let angle := Option.map₂ (fun sw fv => hue * jsPI * 2 + armAngle + sw +
    jsin (fv * 20 + (i : ℚ) * (1/10)) * (6/10)) swirl freq
  let u := freq.map (fun f => clampQ (f * 8) 0 1)
  let phi := u.map (fun uu => (1 - uu) * jsPI)
  let lat := phi.map jsin
  let h2 := lcgNext h1
  let ripple := freq.map (fun f => jsin (f * 18 + t * 10) * 10 + (randVal h2 - 1/2) * 7)
  let bigR := Option.map₂ (fun rb rp => max (1/1000) (rb + rp)) radiusBase ripple
  let fNorm := freq.map (fun f => clampQ (f * 8) 0 1)
  let tier : ℚ := if oltB fNorm (33/100) then 0 else if oltB fNorm (66/100) then 1 else 2
  (h2,
   { px := Option.map₂ (fun an rl => jcos an * rl) angle (Option.map₂ (fun r l => r * l) bigR lat),
     py := Option.map₂ (fun p r => jcos p * r) phi bigR,
     pz := Option.map₂ (fun an rl => jsin an * rl) angle (Option.map₂ (fun r l => r * l) bigR lat),
     baseHue := freq.map (fun f => jsMod (hue + f * (30/100)) 1),
     tier := tier })

/-- The non-empty branch of `createGalaxyFromNeuralMap`: seed the PRNG from
`songHash || String(data.length)`, choose the arm count, build N node-driven
points. -/
def createGalaxyMainBranch (jsin jcos jsqrt : ℚ → ℚ) (songHash : List ℕ)
    (dataList : List MapNode) (n : ℕ) : GalaxyOut :=
  let seed := if songHash = [] then natDigitsCodes dataList.length else songHash
  let h0 := seedFold seed
  let arms := chooseArmsCount h0
  let pts := (List.range n).foldl
    (fun acc i =>
      ((mkGalaxyMainPoint jsin jcos jsqrt dataList arms.2 n acc.1 i).1,
       acc.2 ++ [(mkGalaxyMainPoint jsin jcos jsqrt dataList arms.2 n acc.1 i).2]))
    (arms.1, [])
  { armsCount := arms.2, points := pts.2 }

/-- `NeuralGalaxy.createGalaxyFromNeuralMap(data)`:
`N = min(4000, max(900, data.length * 10))`; an empty node list degenerates to
`createNeutralSpiral(N)`, otherwise the node-driven main branch runs. -/
def createGalaxyFromNeuralMap (jsin jcos jsqrt : ℚ → ℚ) (songHash : List ℕ)
    (dataList : List MapNode) : GalaxyOut :=
  let n := min 4000 (max 900 (dataList.length * 10))
  if dataList.length = 0 then createNeutralSpiral jsin jcos songHash n
  else createGalaxyMainBranch jsin jcos jsqrt songHash dataList n

/-! ### The loop-to-map rewriting lemma -/

theorem stFoldEq {σ α : Type} (f : σ → ℕ → σ) (g : σ → ℕ → α) (n : ℕ) (s0 : σ) :
    (List.range n).foldl (fun acc i => (f acc.1 i, acc.2 ++ [g acc.1 i])) (s0, ([] : List α)) =
      (stIter f s0 n, (List.range n).map (fun i => g (stIter f s0 i) i)) := by
  induction n with
  | zero => simp [stIter]
  | succ n ih =>
      rw [List.range_succ, List.foldl_append, ih]
      simp [stIter, List.range_succ]

/-! ### The two modes compute the same derivation (claims C1-C3 support) -/

theorem maxAbsReduce_eq_maxAbsLoop (l : List ℚ) : maxAbsReduce l = maxAbsLoop l := by
  unfold maxAbsReduce maxAbsLoop
  congr 1
  funext m v
  rcases le_or_lt |v| m with h | h
  · simp [max_eq_left h, not_lt.mpr h]
  · simp [max_eq_right (le_of_lt h), h]

theorem netSlice_eq_dnaSlice (samples : List ℚ) (step i : ℕ) :
    netSlice samples step i = dnaSlice samples step i := by
  unfold netSlice dnaSlice
  rcases le_or_lt ((i + 1) * step) samples.length with h | h
  · rw [min_eq_right h]
  · rw [min_eq_left (le_of_lt h)]
    have h1 : (samples.drop (i * step)).take ((i + 1) * step - i * step) =
        samples.drop (i * step) :=
      List.take_of_length_le (by simp; omega)
    have h2 : (samples.drop (i * step)).take (samples.length - i * step) =
        samples.drop (i * step) :=
      List.take_of_length_le (by simp)
    rw [h1, h2]

theorem mkNetNode_eq_mkDnaNode (jsin jcos : ℚ → ℚ) (samples : List ℚ)
    (nodeCount step : ℕ) (h : ℤ) (i : ℕ) :
    mkNetNode jsin jcos samples nodeCount step h i =
      mkDnaNode jsin jcos samples nodeCount step h i := by
  unfold mkNetNode mkDnaNode
  simp only [netSlice_eq_dnaSlice, maxAbsReduce_eq_maxAbsLoop]

theorem netNodesPass_eq_dnaNodesPass (jsin jcos : ℚ → ℚ) (samples : List ℚ)
    (nodeCount step : ℕ) (h0 : ℤ) :
    netNodesPass jsin jcos samples nodeCount step h0 =
      dnaNodesPass jsin jcos samples nodeCount step h0 := by
  unfold netNodesPass dnaNodesPass
  congr 1
  funext acc i
  rw [mkNetNode_eq_mkDnaNode]

theorem exportNetwork_id (nodes : List MapNode) : exportNetwork nodes = nodes := by
  unfold exportNetwork
  have hfun : (fun n : MapNode =>
      ({ id := n.id, px := n.px, py := n.py, pz := n.pz, freq := n.freq, amp := n.amp,
         hue := n.hue, connections := n.connections } : MapNode)) = fun n => n := by
    funext n; rfl
  rw [hfun, List.map_id']

/-! ### Map-form of the build loops, and the node-count lemma -/

theorem dnaNodesPass_eq_map (jsin jcos : ℚ → ℚ) (samples : List ℚ)
    (nodeCount step : ℕ) (h0 : ℤ) :
    dnaNodesPass jsin jcos samples nodeCount step h0 =
      (stIter (fun h i => (mkDnaNode jsin jcos samples nodeCount step h i).1) h0 nodeCount,
       (List.range nodeCount).map (fun i =>
         (mkDnaNode jsin jcos samples nodeCount step
           (stIter (fun h j => (mkDnaNode jsin jcos samples nodeCount step h j).1) h0 i) i).2)) :=
  stFoldEq (fun h i => (mkDnaNode jsin jcos samples nodeCount step h i).1)
    (fun h i => (mkDnaNode jsin jcos samples nodeCount step h i).2) nodeCount h0

theorem dnaConnPass_eq_map (jsqrt : ℚ → ℚ) (nodes : List MapNode) (h : ℤ) :
    dnaConnPass jsqrt nodes h =
      (List.range nodes.length).map (fun i =>
        setConnections (nodes.getD i default)
          (connRow jsqrt nodes i
            (stIter (fun h2 i2 => (connRow jsqrt nodes i2 h2).1) h i)).2) :=
  congrArg Prod.snd
    (stFoldEq (fun h2 i2 => (connRow jsqrt nodes i2 h2).1)
      (fun h2 i2 => setConnections (nodes.getD i2 default) (connRow jsqrt nodes i2 h2).2)
      nodes.length h)

theorem dnaConnPass_length (jsqrt : ℚ → ℚ) (nodes : List MapNode) (h : ℤ) :
    (dnaConnPass jsqrt nodes h).length = nodes.length := by
  rw [dnaConnPass_eq_map]; simp

theorem dnaNodesPass_snd_length (jsin jcos : ℚ → ℚ) (samples : List ℚ)
    (nodeCount step : ℕ) (h0 : ℤ) :
    (dnaNodesPass jsin jcos samples nodeCount step h0).2.length = nodeCount := by
  rw [dnaNodesPass_eq_map]; simp

theorem buildMapData_length (jsin jcos jsqrt : ℚ → ℚ) (samples : List ℚ)
    (duration : ℚ) (hash : List ℕ) :
    (buildMapDataFromAudio jsin jcos jsqrt samples duration hash).length =
      dnaNodeCount duration := by
  unfold buildMapDataFromAudio
  rw [dnaConnPass_length, dnaNodesPass_snd_length]

/-! ### Claims C1, C2, C3 -/

/-- Claim C1: for every decoded audio buffer (channel-0 samples plus duration)
and every seed string, two independent calls of `buildMapDataFromAudio` with
the same buffer and the same seed produce identical output — same node count
and, index by index, identical position, amp, freq, hue and ordered
connection lists.  (The generator is a pure function of samples, duration and
seed: no other input influences the result.) -/
theorem c1_generator_deterministic (jsin jcos jsqrt : ℚ → ℚ)
    (samples1 samples2 : List ℚ) (d1 d2 : ℚ) (hash1 hash2 : List ℕ)
    (hs : samples1 = samples2) (hd : d1 = d2) (hh : hash1 = hash2) :
    (buildMapDataFromAudio jsin jcos jsqrt samples1 d1 hash1).length =
      (buildMapDataFromAudio jsin jcos jsqrt samples2 d2 hash2).length ∧
    buildMapDataFromAudio jsin jcos jsqrt samples1 d1 hash1 =
      buildMapDataFromAudio jsin jcos jsqrt samples2 d2 hash2 := by
  subst hs; subst hd; subst hh; exact ⟨rfl, rfl⟩

theorem c1_generator_deterministic_witness :
    ([(1:ℚ)/2, -1/3] = [(1:ℚ)/2, -1/3]) ∧ ((3:ℚ) = 3) ∧ ([97] = ([97] : List ℕ)) ∧
    ((buildMapDataFromAudio zeroFun zeroFun zeroFun [(1:ℚ)/2, -1/3] 3 [97]).length =
      (buildMapDataFromAudio zeroFun zeroFun zeroFun [(1:ℚ)/2, -1/3] 3 [97]).length ∧
     buildMapDataFromAudio zeroFun zeroFun zeroFun [(1:ℚ)/2, -1/3] 3 [97] =
      buildMapDataFromAudio zeroFun zeroFun zeroFun [(1:ℚ)/2, -1/3] 3 [97]) :=
  ⟨rfl, rfl, rfl,
    c1_generator_deterministic zeroFun zeroFun zeroFun _ _ 3 3 [97] [97] rfl rfl rfl⟩

/-- Claim C2: for every audio buffer and every seed string, the headless
`buildMapDataFromAudio` and NeuralMap's `buildNetFromAudio` followed by
`exportNetwork` derive the same structure — equal node count and, for every
index, equal id, position, amp, freq, hue and connection list. -/
theorem c2_modes_share_derivation (jsin jcos jsqrt : ℚ → ℚ) (samples : List ℚ)
    (duration : ℚ) (audioHash : List ℕ) :
    (exportNetwork (buildNetFromAudio jsin jcos jsqrt samples duration audioHash)).length =
      (buildMapDataFromAudio jsin jcos jsqrt samples duration audioHash).length ∧
    exportNetwork (buildNetFromAudio jsin jcos jsqrt samples duration audioHash) =
      buildMapDataFromAudio jsin jcos jsqrt samples duration audioHash := by
  have hmain : exportNetwork (buildNetFromAudio jsin jcos jsqrt samples duration audioHash) =
      buildMapDataFromAudio jsin jcos jsqrt samples duration audioHash := by
    rw [exportNetwork_id]
    unfold buildNetFromAudio buildMapDataFromAudio
    simp only [netNodesPass_eq_dnaNodesPass]
  exact ⟨by rw [hmain], hmain⟩

/-- Claim C3: for every duration D ≥ 0 the generator's node count equals
`max(50, min(200, floor(D*10)))` and therefore lies in [50, 200]. -/
theorem c3_node_count (jsin jcos jsqrt : ℚ → ℚ) (samples : List ℚ) (duration : ℚ)
    (hash : List ℕ) (hD : 0 ≤ duration) :
    ((buildMapDataFromAudio jsin jcos jsqrt samples duration hash).length : ℤ) =
      max 50 (min 200 ⌊duration * 10⌋) ∧
    50 ≤ (buildMapDataFromAudio jsin jcos jsqrt samples duration hash).length ∧
    (buildMapDataFromAudio jsin jcos jsqrt samples duration hash).length ≤ 200 := by
  rw [buildMapData_length]
  unfold dnaNodeCount dnaNodeCountZ
  omega

theorem c3_node_count_witness :
    (0 : ℚ) ≤ 3 ∧
    (((buildMapDataFromAudio zeroFun zeroFun zeroFun [] 3 [97]).length : ℤ) =
      max 50 (min 200 ⌊(3:ℚ) * 10⌋) ∧
     50 ≤ (buildMapDataFromAudio zeroFun zeroFun zeroFun [] 3 [97]).length ∧
     (buildMapDataFromAudio zeroFun zeroFun zeroFun [] 3 [97]).length ≤ 200) :=
  ⟨by norm_num, c3_node_count zeroFun zeroFun zeroFun [] 3 [97] (by norm_num)⟩

/-! ### Per-index shape of the generator output (claims C4, C5 support) -/

theorem dnaNodesPass_getD (jsin jcos : ℚ → ℚ) (samples : List ℚ)
    (nodeCount step : ℕ) (h0 : ℤ) (i : ℕ) (hi : i < nodeCount) :
    (dnaNodesPass jsin jcos samples nodeCount step h0).2.getD i default =
      (mkDnaNode jsin jcos samples nodeCount step
        (stIter (fun h j => (mkDnaNode jsin jcos samples nodeCount step h j).1) h0 i) i).2 := by
  rw [dnaNodesPass_eq_map]
  rw [List.getD_eq_getElem _ _ (by simpa using hi)]
  simp

theorem dnaConnPass_getD (jsqrt : ℚ → ℚ) (nodes : List MapNode) (h : ℤ) (i : ℕ)
    (hi : i < nodes.length) :
    (dnaConnPass jsqrt nodes h).getD i default =
      setConnections (nodes.getD i default)
        (connRow jsqrt nodes i (stIter (fun h2 i2 => (connRow jsqrt nodes i2 h2).1) h i)).2 := by
  rw [dnaConnPass_eq_map]
  rw [List.getD_eq_getElem _ _ (by simpa using hi)]
  simp

theorem setConnections_amp (n : MapNode) (c : List ℕ) : (setConnections n c).amp = n.amp := rfl

theorem setConnections_freq (n : MapNode) (c : List ℕ) : (setConnections n c).freq = n.freq := rfl

theorem setConnections_py (n : MapNode) (c : List ℕ) : (setConnections n c).py = n.py := rfl

theorem mkDnaNode_amp (jsin jcos : ℚ → ℚ) (samples : List ℚ) (nodeCount step : ℕ)
    (h : ℤ) (i : ℕ) :
    (mkDnaNode jsin jcos samples nodeCount step h i).2.amp = maxAbsLoop (dnaSlice samples step i) :=
  rfl

theorem mkDnaNode_freq (jsin jcos : ℚ → ℚ) (samples : List ℚ) (nodeCount step : ℕ)
    (h : ℤ) (i : ℕ) :
    (mkDnaNode jsin jcos samples nodeCount step h i).2.freq =
      extractDominantFrequency (dnaSlice samples step i) :=
  rfl

theorem mkDnaNode_py (jsin jcos : ℚ → ℚ) (samples : List ℚ) (nodeCount step : ℕ)
    (h : ℤ) (i : ℕ) :
    (mkDnaNode jsin jcos samples nodeCount step h i).2.py =
      (extractDominantFrequency (dnaSlice samples step i)).map
        (fun f => (maxAbsLoop (dnaSlice samples step i) - 1/2) * 80 + jsin (f * (1/10)) * 20) :=
  rfl

/-- The generator expressed as the conn-pass applied to the node-pass
(definitional unfolding of `buildMapDataFromAudio`). -/
theorem buildMapData_unfold (jsin jcos jsqrt : ℚ → ℚ) (samples : List ℚ)
    (duration : ℚ) (hash : List ℕ) :
    buildMapDataFromAudio jsin jcos jsqrt samples duration hash =
      dnaConnPass jsqrt
        (dnaNodesPass jsin jcos samples (dnaNodeCount duration)
          (dnaStep samples.length (dnaNodeCount duration))
          (seedFold (if hash = [] then seedLiteral else hash))).2
        (dnaNodesPass jsin jcos samples (dnaNodeCount duration)
          (dnaStep samples.length (dnaNodeCount duration))
          (seedFold (if hash = [] then seedLiteral else hash))).1 :=
  rfl

/-! ### Claim C4 (corrected) -/

/-- Claim C4 counterexample: the claimed slice coverage is false.  With 101
samples and duration 3 (node count 50, step 2) the slices cover only indices
0..99: sample index 100 is in no slice — the partition does not cover the
entire sequence. -/
theorem c4_coverage_counterexample :
    ¬ (∀ idx, idx < (List.replicate 101 (0:ℚ)).length →
        ∃ j, j < dnaNodeCount 3 ∧
          j * dnaStep (List.replicate 101 (0:ℚ)).length (dnaNodeCount 3) ≤ idx ∧
          idx < min (List.replicate 101 (0:ℚ)).length
            ((j + 1) * dnaStep (List.replicate 101 (0:ℚ)).length (dnaNodeCount 3))) := by
  have hnc : dnaNodeCount 3 = 50 := by
    have h30 : (⌊(3:ℚ) * 10⌋ : ℤ) = 30 := by norm_num
    unfold dnaNodeCount dnaNodeCountZ
    rw [h30]
    omega
  have hlen : (List.replicate 101 (0:ℚ)).length = 101 := by simp
  intro hcl
  obtain ⟨j, hj, _h1, h2⟩ := hcl 100 (by rw [hlen]; norm_num)
  rw [hnc] at hj
  rw [hlen, hnc] at h2
  have hstep : dnaStep 101 50 = 2 := by decide
  rw [hstep] at h2
  omega

/-- Claim C4 (amended): node `i`'s amp and zero-crossing feature are computed
over the contiguous slice `[i*step, min(len, (i+1)*step))` with
`step = max(1, floor(len / nodeCount))`; the slices together cover exactly the
first `min(len, nodeCount*step)` samples — the `len - nodeCount*step` trailing
samples (when the count does not divide evenly) belong to no slice. -/
theorem c4_amended_slicing (jsin jcos jsqrt : ℚ → ℚ) (samples : List ℚ)
    (duration : ℚ) (hash : List ℕ) (i : ℕ) (hi : i < dnaNodeCount duration) :
    ((buildMapDataFromAudio jsin jcos jsqrt samples duration hash).getD i default).amp =
      maxAbsLoop (dnaSlice samples (dnaStep samples.length (dnaNodeCount duration)) i) ∧
    ((buildMapDataFromAudio jsin jcos jsqrt samples duration hash).getD i default).freq =
      extractDominantFrequency
        (dnaSlice samples (dnaStep samples.length (dnaNodeCount duration)) i) ∧
    dnaSlice samples (dnaStep samples.length (dnaNodeCount duration)) i =
      (samples.drop (i * dnaStep samples.length (dnaNodeCount duration))).take
        (min samples.length ((i + 1) * dnaStep samples.length (dnaNodeCount duration)) -
          i * dnaStep samples.length (dnaNodeCount duration)) ∧
    (∀ idx : ℕ,
      (∃ j, j < dnaNodeCount duration ∧
          j * dnaStep samples.length (dnaNodeCount duration) ≤ idx ∧
          idx < min samples.length
            ((j + 1) * dnaStep samples.length (dnaNodeCount duration))) ↔
        idx < min samples.length
          (dnaNodeCount duration * dnaStep samples.length (dnaNodeCount duration))) := by
  have hlen2 : (dnaNodesPass jsin jcos samples (dnaNodeCount duration)
      (dnaStep samples.length (dnaNodeCount duration))
      (seedFold (if hash = [] then seedLiteral else hash))).2.length = dnaNodeCount duration :=
    dnaNodesPass_snd_length _ _ _ _ _ _
  refine ⟨?_, ?_, rfl, ?_⟩
  · rw [buildMapData_unfold, dnaConnPass_getD _ _ _ i (by rw [hlen2]; exact hi),
      setConnections_amp, dnaNodesPass_getD _ _ _ _ _ _ i hi, mkDnaNode_amp]
  · rw [buildMapData_unfold, dnaConnPass_getD _ _ _ i (by rw [hlen2]; exact hi),
      setConnections_freq, dnaNodesPass_getD _ _ _ _ _ _ i hi, mkDnaNode_freq]
  · intro idx
    have hstep : 0 < dnaStep samples.length (dnaNodeCount duration) := by
      unfold dnaStep; omega
    constructor
    · rintro ⟨j, hj, _hj1, hj2⟩
      have h2 : idx < samples.length := lt_of_lt_of_le hj2 (min_le_left _ _)
      have h3 : idx < (j + 1) * dnaStep samples.length (dnaNodeCount duration) :=
        lt_of_lt_of_le hj2 (min_le_right _ _)
      have h4 : (j + 1) * dnaStep samples.length (dnaNodeCount duration) ≤
          dnaNodeCount duration * dnaStep samples.length (dnaNodeCount duration) :=
        Nat.mul_le_mul_right _ hj
      exact lt_min h2 (lt_of_lt_of_le h3 h4)
    · intro hidx
      have h2 : idx < samples.length := lt_of_lt_of_le hidx (min_le_left _ _)
      have h3 : idx < dnaNodeCount duration * dnaStep samples.length (dnaNodeCount duration) :=
        lt_of_lt_of_le hidx (min_le_right _ _)
      refine ⟨idx / dnaStep samples.length (dnaNodeCount duration),
        (Nat.div_lt_iff_lt_mul hstep).mpr h3, Nat.div_mul_le_self idx _, ?_⟩
      refine lt_min h2 ?_
      have hmod := Nat.mod_lt idx hstep
      have hdm := Nat.div_add_mod idx (dnaStep samples.length (dnaNodeCount duration))
      calc idx = dnaStep samples.length (dnaNodeCount duration) *
            (idx / dnaStep samples.length (dnaNodeCount duration)) +
            idx % dnaStep samples.length (dnaNodeCount duration) := hdm.symm
        _ < dnaStep samples.length (dnaNodeCount duration) *
            (idx / dnaStep samples.length (dnaNodeCount duration)) +
            dnaStep samples.length (dnaNodeCount duration) := by omega
        _ = (idx / dnaStep samples.length (dnaNodeCount duration) + 1) *
            dnaStep samples.length (dnaNodeCount duration) := by ring

theorem c4_amended_slicing_witness :
    0 < dnaNodeCount 3 ∧
    (((buildMapDataFromAudio zeroFun zeroFun zeroFun [] 3 [97]).getD 0 default).amp =
      maxAbsLoop (dnaSlice [] (dnaStep (List.length ([] : List ℚ)) (dnaNodeCount 3)) 0) ∧
     ((buildMapDataFromAudio zeroFun zeroFun zeroFun [] 3 [97]).getD 0 default).freq =
      extractDominantFrequency
        (dnaSlice [] (dnaStep (List.length ([] : List ℚ)) (dnaNodeCount 3)) 0) ∧
     dnaSlice [] (dnaStep (List.length ([] : List ℚ)) (dnaNodeCount 3)) 0 =
      (([] : List ℚ).drop (0 * dnaStep (List.length ([] : List ℚ)) (dnaNodeCount 3))).take
        (min (List.length ([] : List ℚ))
          ((0 + 1) * dnaStep (List.length ([] : List ℚ)) (dnaNodeCount 3)) -
          0 * dnaStep (List.length ([] : List ℚ)) (dnaNodeCount 3)) ∧
     (∀ idx : ℕ,
      (∃ j, j < dnaNodeCount 3 ∧
          j * dnaStep (List.length ([] : List ℚ)) (dnaNodeCount 3) ≤ idx ∧
          idx < min (List.length ([] : List ℚ))
            ((j + 1) * dnaStep (List.length ([] : List ℚ)) (dnaNodeCount 3))) ↔
        idx < min (List.length ([] : List ℚ))
          (dnaNodeCount 3 * dnaStep (List.length ([] : List ℚ)) (dnaNodeCount 3)))) := by
  have h0 : 0 < dnaNodeCount 3 := by unfold dnaNodeCount dnaNodeCountZ; omega
  exact ⟨h0, c4_amended_slicing zeroFun zeroFun zeroFun [] 3 [97] 0 h0⟩

/-! ### Claim C5 (code bug: empty sample data produces NaN freq, not the fallback) -/

/-- Claim C5, evaluated against the code: with empty channel data the
generator still builds `nodeCount ≥ 50` nodes, `extractDominantFrequency`
computes the JS division `0 / 0` on every (empty) slice so every node's
`freq` (and hence its y coordinate) is NaN, the returned list is non-empty,
and the galaxy builder therefore takes its node-driven main branch — the
neutral-spiral fallback is not reached. -/
theorem c5_empty_samples_nan_not_fallback (jsin jcos jsqrt : ℚ → ℚ)
    (duration : ℚ) (hash : List ℕ) :
    (∀ node ∈ buildMapDataFromAudio jsin jcos jsqrt [] duration hash,
       node.freq = none ∧ node.py = none) ∧
    (buildMapDataFromAudio jsin jcos jsqrt [] duration hash).length =
      dnaNodeCount duration ∧
    (buildMapDataFromAudio jsin jcos jsqrt [] duration hash).length ≠ 0 ∧
    createGalaxyFromNeuralMap jsin jcos jsqrt hash
        (buildMapDataFromAudio jsin jcos jsqrt [] duration hash) =
      createGalaxyMainBranch jsin jcos jsqrt hash
        (buildMapDataFromAudio jsin jcos jsqrt [] duration hash)
        (min 4000 (max 900
          ((buildMapDataFromAudio jsin jcos jsqrt [] duration hash).length * 10))) := by
  have hlen : (buildMapDataFromAudio jsin jcos jsqrt [] duration hash).length =
      dnaNodeCount duration := buildMapData_length _ _ _ _ _ _
  have hpos : 0 < dnaNodeCount duration := by unfold dnaNodeCount dnaNodeCountZ; omega
  have hne : (buildMapDataFromAudio jsin jcos jsqrt [] duration hash).length ≠ 0 := by
    rw [hlen]; omega
  have hlen2 : (dnaNodesPass jsin jcos [] (dnaNodeCount duration)
      (dnaStep (List.length ([] : List ℚ)) (dnaNodeCount duration))
      (seedFold (if hash = [] then seedLiteral else hash))).2.length = dnaNodeCount duration :=
    dnaNodesPass_snd_length _ _ _ _ _ _
  refine ⟨?_, hlen, hne, ?_⟩
  · intro node hmem
    rw [buildMapData_unfold, dnaConnPass_eq_map] at hmem
    simp only [List.mem_map, List.mem_range] at hmem
    obtain ⟨i, hi, heq⟩ := hmem
    rw [hlen2] at hi
    rw [← heq, setConnections_freq, setConnections_py,
      dnaNodesPass_getD _ _ _ _ _ _ i hi, mkDnaNode_freq, mkDnaNode_py]
    constructor
    · simp [dnaSlice, extractDominantFrequency]
    · simp [dnaSlice, extractDominantFrequency]
  · unfold createGalaxyFromNeuralMap
    rw [if_neg hne]

/-! ### Claim C6 (zone weight normalization) -/

theorem sigmoidQ_pos (jexp : ℚ → ℚ) (hpos : ∀ x, 0 < jexp x) (x : ℚ) :
    0 < sigmoidQ jexp x := by
  unfold sigmoidQ
  have := hpos (-x)
  exact div_pos one_pos (by linarith)

theorem sigmoidQ_le_one (jexp : ℚ → ℚ) (hpos : ∀ x, 0 < jexp x) (x : ℚ) :
    sigmoidQ jexp x ≤ 1 := by
  unfold sigmoidQ
  have := hpos (-x)
  rw [div_le_one (by linarith)]
  linarith

theorem sigmoidQ_mono (jexp : ℚ → ℚ) (hpos : ∀ x, 0 < jexp x)
    (hmono : ∀ x1 x2, x1 ≤ x2 → jexp x1 ≤ jexp x2) (x1 x2 : ℚ) (h : x1 ≤ x2) :
    sigmoidQ jexp x1 ≤ sigmoidQ jexp x2 := by
  unfold sigmoidQ
  have h1 : 0 < 1 + jexp (-x2) := by have := hpos (-x2); linarith
  have h2 : jexp (-x2) ≤ jexp (-x1) := hmono _ _ (by linarith)
  exact one_div_le_one_div_of_le h1 (by linarith)

/-- The normalized logistic zone-weight triple is non-negative and sums to 1,
for any softness `k > 0` and any edges `a ≤ b`: the raw weights already sum to
exactly 1 (the window telescopes), so `sumW = max(1e-6, 1) = 1`. -/
theorem zoneTriple (jexp : ℚ → ℚ) (hpos : ∀ x, 0 < jexp x)
    (hmono : ∀ x1 x2, x1 ≤ x2 → jexp x1 ≤ jexp x2) (y a b k : ℚ)
    (hk : 0 < k) (hab : a ≤ b) :
    0 ≤ zwBass jexp y a k / zwSum jexp y a b k ∧
    0 ≤ logisticWindow jexp y a b k / zwSum jexp y a b k ∧
    0 ≤ zwTreble jexp y b k / zwSum jexp y a b k ∧
    zwBass jexp y a k / zwSum jexp y a b k +
      logisticWindow jexp y a b k / zwSum jexp y a b k +
      zwTreble jexp y b k / zwSum jexp y a b k = 1 := by
  have hσmono : sigmoidQ jexp ((y - b) / k) ≤ sigmoidQ jexp ((y - a) / k) :=
    sigmoidQ_mono jexp hpos hmono _ _ ((div_le_div_iff_of_pos_right hk).mpr (by linarith))
  have hmid : logisticWindow jexp y a b k =
      sigmoidQ jexp ((y - a) / k) - sigmoidQ jexp ((y - b) / k) := by
    unfold logisticWindow
    exact max_eq_right (by linarith)
  have hsum1 : zwBass jexp y a k + logisticWindow jexp y a b k + zwTreble jexp y b k = 1 := by
    unfold zwBass zwTreble
    rw [hmid]
    ring
  have hsumW : zwSum jexp y a b k = 1 := by
    unfold zwSum
    rw [hsum1]
    exact max_eq_right (by norm_num)
  have hb0 : 0 ≤ zwBass jexp y a k := by
    unfold zwBass
    have := sigmoidQ_le_one jexp hpos ((y - a) / k)
    linarith
  have hm0 : 0 ≤ logisticWindow jexp y a b k := le_max_left _ _
  have ht0 : 0 ≤ zwTreble jexp y b k := le_of_lt (sigmoidQ_pos jexp hpos _)
  rw [hsumW]
  simp only [div_one]
  exact ⟨hb0, hm0, ht0, hsum1⟩

/-- Claim C6: for every normalized polar position y in [0,1] and every blend
configuration within its clamped ranges (bassEdge clamped to [0.02,0.48],
trebleEdge to [0.52,0.98], softness to [0.015,0.25]), the three logistic zone
weights wB, wM, wT computed per point are each ≥ 0 and sum to exactly 1 after
normalization.  (Holds for any positive monotone exponential.) -/
theorem c6_zone_weight_normalization (jexp : ℚ → ℚ)
    (y bassEdgeRaw trebleEdgeRaw softRaw : ℚ)
    (hpos : ∀ x, 0 < jexp x) (hmono : ∀ x1 x2, x1 ≤ x2 → jexp x1 ≤ jexp x2)
    (hy0 : 0 ≤ y) (hy1 : y ≤ 1) :
    0 ≤ (zoneWeights jexp y bassEdgeRaw trebleEdgeRaw softRaw).1 ∧
    0 ≤ (zoneWeights jexp y bassEdgeRaw trebleEdgeRaw softRaw).2.1 ∧
    0 ≤ (zoneWeights jexp y bassEdgeRaw trebleEdgeRaw softRaw).2.2 ∧
    (zoneWeights jexp y bassEdgeRaw trebleEdgeRaw softRaw).1 +
      (zoneWeights jexp y bassEdgeRaw trebleEdgeRaw softRaw).2.1 +
      (zoneWeights jexp y bassEdgeRaw trebleEdgeRaw softRaw).2.2 = 1 := by
  have hk : (0:ℚ) < clampQ softRaw (15/1000) (25/100) :=
    lt_of_lt_of_le (by norm_num) (le_max_left _ _)
  have hab : clampQ bassEdgeRaw (2/100) (48/100) ≤ clampQ trebleEdgeRaw (52/100) (98/100) := by
    have h1 : clampQ bassEdgeRaw (2/100) (48/100) ≤ 48/100 :=
      max_le (by norm_num) (min_le_left _ _)
    have h2 : (52/100 : ℚ) ≤ clampQ trebleEdgeRaw (52/100) (98/100) := le_max_left _ _
    linarith
  exact zoneTriple jexp hpos hmono y _ _ _ hk hab

theorem c6_zone_weight_normalization_witness :
    (∀ x : ℚ, 0 < oneFun x) ∧ (∀ x1 x2 : ℚ, x1 ≤ x2 → oneFun x1 ≤ oneFun x2) ∧
    ((0:ℚ) ≤ 1/2) ∧ ((1:ℚ)/2 ≤ 1) ∧
    (0 ≤ (zoneWeights oneFun (1/2) (22/100) (78/100) (8/100)).1 ∧
     0 ≤ (zoneWeights oneFun (1/2) (22/100) (78/100) (8/100)).2.1 ∧
     0 ≤ (zoneWeights oneFun (1/2) (22/100) (78/100) (8/100)).2.2 ∧
     (zoneWeights oneFun (1/2) (22/100) (78/100) (8/100)).1 +
       (zoneWeights oneFun (1/2) (22/100) (78/100) (8/100)).2.1 +
       (zoneWeights oneFun (1/2) (22/100) (78/100) (8/100)).2.2 = 1) :=
  ⟨fun _ => one_pos, fun _ _ _ => le_refl 1, by norm_num, by norm_num,
   c6_zone_weight_normalization oneFun (1/2) (22/100) (78/100) (8/100)
     (fun _ => one_pos) (fun _ _ _ => le_refl 1) (by norm_num) (by norm_num)⟩

/-! ### Claim C7 (arm-lane pull monotonicity) -/

theorem jsPI_pos : (0:ℚ) < jsPI := by norm_num [jsPI]

theorem twoPI_pos : (0:ℚ) < 2 * jsPI := by have := jsPI_pos; linarith

/-- The forward wrap never lands behind `theta`. -/
theorem wrapForward_ge (sb th : ℚ) : th ≤ wrapForward sb th := by
  unfold wrapForward wrapCount
  have hceil : (th - sb) / (2 * jsPI) ≤ ((Int.ceil ((th - sb) / (2 * jsPI)) : ℤ) : ℚ) :=
    Int.le_ceil _
  have htn : ((Int.ceil ((th - sb) / (2 * jsPI)) : ℤ) : ℚ) ≤
      (((Int.ceil ((th - sb) / (2 * jsPI))).toNat : ℕ) : ℚ) := by
    exact_mod_cast Int.self_le_toNat _
  have hx : (th - sb) / (2 * jsPI) ≤ (((Int.ceil ((th - sb) / (2 * jsPI))).toNat : ℕ) : ℚ) :=
    le_trans hceil htn
  have := (div_le_iff₀ twoPI_pos).mp hx
  linarith

/-- The wrap count is the least number of forward full turns reaching `theta`. -/
theorem wrapCount_min (sb th : ℚ) (m : ℕ) (hm : th ≤ sb + 2 * jsPI * (m : ℚ)) :
    wrapCount sb th ≤ m := by
  unfold wrapCount
  have hx : (th - sb) / (2 * jsPI) ≤ (m : ℚ) := by
    rw [div_le_iff₀ twoPI_pos]
    linarith
  have hceil : Int.ceil ((th - sb) / (2 * jsPI)) ≤ (m : ℤ) :=
    Int.ceil_le.mpr (by exact_mod_cast hx)
  omega

/-- A lerp with non-negative parameter toward a target not below the start
never moves below the start. -/
theorem lerpQ_ge_left (x y t : ℚ) (ht : 0 ≤ t) (hxy : x ≤ y) : x ≤ lerpQ x y t := by
  unfold lerpQ
  nlinarith

/-- Claim C7 (amended): per point and frame, the arm-lane pull target is the
lane angle advanced by the LEAST number of whole forward turns that puts it
not behind the current azimuthal angle (so after wrapping `spiralBase ≥
theta`, but it need not lie within one turn of `theta`), the pull strength
`armAssert` is clamped to [0,1], and the lerp toward the wrapped target never
decreases `theta` — lane snapping never reverses rotation direction. -/
theorem c7_arm_pull_amended (jsin jexp jsqrt : ℚ → ℚ) (jatan2 : ℚ → ℚ → ℚ)
    (hash : List ℕ) (F : FeatOut) (sensNorm t0 : ℚ) (fdata : List ℕ)
    (armsCountField : ℕ) (yMin yMax : ℚ) (count : ℕ) (i : ℕ) (pbx pby pbz : ℚ) :
    (updatePointAngles jsin jexp jsqrt jatan2 hash F sensNorm t0 fdata armsCountField
        yMin yMax count i pbx pby pbz).theta ≤
      (updatePointAngles jsin jexp jsqrt jatan2 hash F sensNorm t0 fdata armsCountField
        yMin yMax count i pbx pby pbz).spiralBaseW ∧
    (updatePointAngles jsin jexp jsqrt jatan2 hash F sensNorm t0 fdata armsCountField
        yMin yMax count i pbx pby pbz).spiralBaseW =
      (updatePointAngles jsin jexp jsqrt jatan2 hash F sensNorm t0 fdata armsCountField
        yMin yMax count i pbx pby pbz).spiralBase +
        2 * jsPI * ((wrapCount
          (updatePointAngles jsin jexp jsqrt jatan2 hash F sensNorm t0 fdata armsCountField
            yMin yMax count i pbx pby pbz).spiralBase
          (updatePointAngles jsin jexp jsqrt jatan2 hash F sensNorm t0 fdata armsCountField
            yMin yMax count i pbx pby pbz).theta : ℕ) : ℚ) ∧
    (∀ m : ℕ,
      (updatePointAngles jsin jexp jsqrt jatan2 hash F sensNorm t0 fdata armsCountField
          yMin yMax count i pbx pby pbz).theta ≤
        (updatePointAngles jsin jexp jsqrt jatan2 hash F sensNorm t0 fdata armsCountField
          yMin yMax count i pbx pby pbz).spiralBase + 2 * jsPI * (m : ℚ) →
      wrapCount
        (updatePointAngles jsin jexp jsqrt jatan2 hash F sensNorm t0 fdata armsCountField
          yMin yMax count i pbx pby pbz).spiralBase
        (updatePointAngles jsin jexp jsqrt jatan2 hash F sensNorm t0 fdata armsCountField
          yMin yMax count i pbx pby pbz).theta ≤ m) ∧
    0 ≤ (updatePointAngles jsin jexp jsqrt jatan2 hash F sensNorm t0 fdata armsCountField
        yMin yMax count i pbx pby pbz).armAssert ∧
    (updatePointAngles jsin jexp jsqrt jatan2 hash F sensNorm t0 fdata armsCountField
        yMin yMax count i pbx pby pbz).armAssert ≤ 1 ∧
    (updatePointAngles jsin jexp jsqrt jatan2 hash F sensNorm t0 fdata armsCountField
        yMin yMax count i pbx pby pbz).theta ≤
      (updatePointAngles jsin jexp jsqrt jatan2 hash F sensNorm t0 fdata armsCountField
        yMin yMax count i pbx pby pbz).thetaPulled := by
  refine ⟨wrapForward_ge _ _, rfl, fun m hm => wrapCount_min _ _ m hm,
    le_max_left _ _, max_le (by norm_num) (min_le_left _ _),
    lerpQ_ge_left _ _ _ (le_max_left _ _) (wrapForward_ge _ _)⟩

theorem c7_arm_pull_amended_witness :
    (updatePointAngles zeroFun oneFun (constFun 200) (constFun2 0) [97] zeroFeatOut 0 0 [0] 5
        0 1 900 7 100 0 50).theta ≤
      (updatePointAngles zeroFun oneFun (constFun 200) (constFun2 0) [97] zeroFeatOut 0 0 [0] 5
        0 1 900 7 100 0 50).spiralBaseW ∧
    0 ≤ (updatePointAngles zeroFun oneFun (constFun 200) (constFun2 0) [97] zeroFeatOut 0 0 [0] 5
        0 1 900 7 100 0 50).armAssert :=
  ⟨(c7_arm_pull_amended zeroFun oneFun (constFun 200) (constFun2 0) [97] zeroFeatOut 0 0 [0] 5
      0 1 900 7 100 0 50).1,
   (c7_arm_pull_amended zeroFun oneFun (constFun 200) (constFun2 0) [97] zeroFeatOut 0 0 [0] 5
      0 1 900 7 100 0 50).2.2.2.1⟩

/-- Claim C7 counterexample: the pull target is NOT always the nearest
equivalent angle ahead (mod 2π).  For a point with a large base radius
(rBase = 200 + 1e-6, arm 4 of 5, zero features, flat math functions) the lane
target starts more than a full turn ahead of theta = 0, the while-loop adds
nothing, and the wrapped target sits ≥ theta + 2π — not within one turn. -/
theorem c7_nearest_counterexample :
    (updatePointAngles zeroFun oneFun (constFun 200) (constFun2 0) [97] zeroFeatOut 0 0 [0] 5
        0 1 900 4 100 0 50).theta + 2 * jsPI ≤
      (updatePointAngles zeroFun oneFun (constFun 200) (constFun2 0) [97] zeroFeatOut 0 0 [0] 5
        0 1 900 4 100 0 50).spiralBaseW := by
  have htheta : (updatePointAngles zeroFun oneFun (constFun 200) (constFun2 0) [97] zeroFeatOut
      0 0 [0] 5 0 1 900 4 100 0 50).theta = 0 := by
    simp only [updatePointAngles, zeroFun, oneFun, constFun, constFun2, zeroFeatOut]
    ring
  have hsb : (updatePointAngles zeroFun oneFun (constFun 200) (constFun2 0) [97] zeroFeatOut
      0 0 [0] 5 0 1 900 4 100 0 50).spiralBase =
      (4/5) * jsPI * 2 + (200 + 1/1000000) * (12/1000) := by
    simp only [updatePointAngles, zeroFun, oneFun, constFun, constFun2, zeroFeatOut]
    norm_num
  have hwc : wrapCount
      ((updatePointAngles zeroFun oneFun (constFun 200) (constFun2 0) [97] zeroFeatOut
        0 0 [0] 5 0 1 900 4 100 0 50).spiralBase)
      ((updatePointAngles zeroFun oneFun (constFun 200) (constFun2 0) [97] zeroFeatOut
        0 0 [0] 5 0 1 900 4 100 0 50).theta) = 0 := by
    rw [htheta, hsb]
    unfold wrapCount
    have hceil : Int.ceil ((0 - ((4/5) * jsPI * 2 + (200 + 1/1000000) * (12/1000))) /
        (2 * jsPI)) ≤ (0:ℤ) := by
      apply Int.ceil_le.mpr
      push_cast
      apply div_nonpos_of_nonpos_of_nonneg
      · norm_num [jsPI]
      · have := jsPI_pos; linarith
    omega
  have hw : (updatePointAngles zeroFun oneFun (constFun 200) (constFun2 0) [97] zeroFeatOut
      0 0 [0] 5 0 1 900 4 100 0 50).spiralBaseW =
      (updatePointAngles zeroFun oneFun (constFun 200) (constFun2 0) [97] zeroFeatOut
        0 0 [0] 5 0 1 900 4 100 0 50).spiralBase +
        2 * jsPI * ((wrapCount
          ((updatePointAngles zeroFun oneFun (constFun 200) (constFun2 0) [97] zeroFeatOut
            0 0 [0] 5 0 1 900 4 100 0 50).spiralBase)
          ((updatePointAngles zeroFun oneFun (constFun 200) (constFun2 0) [97] zeroFeatOut
            0 0 [0] 5 0 1 900 4 100 0 50).theta) : ℕ) : ℚ) := rfl
  rw [htheta, hw, hwc, hsb]
  norm_num [jsPI]

/-! ### Claim C8 (envelope boundedness and zero-snapshot decay) -/

theorem clampQ_lo_le (x lo hi : ℚ) : lo ≤ clampQ x lo hi := le_max_left _ _

theorem clampQ_le_hi (x lo hi : ℚ) (h : lo ≤ hi) : clampQ x lo hi ≤ hi :=
  max_le h (min_le_left _ _)

theorem clampQ_eq_self (x lo hi : ℚ) (h1 : lo ≤ x) (h2 : x ≤ hi) : clampQ x lo hi = x := by
  unfold clampQ
  rw [min_eq_right h2, max_eq_right h1]

theorem bandVal_nonneg (bins : List ℕ) : 0 ≤ bandVal bins := by
  unfold bandVal
  split
  · norm_num
  · positivity

theorem bandVal_le_one (bins : List ℕ) (h : ∀ b ∈ bins, b ≤ 255) : bandVal bins ≤ 1 := by
  unfold bandVal
  split
  · norm_num
  · rename_i hne
    have hsum : bins.sum ≤ bins.length * 255 := by
      have := List.sum_le_card_nsmul bins 255 h
      simpa [smul_eq_mul] using this
    have hlenpos : 0 < (bins.length : ℚ) := by
      exact_mod_cast Nat.pos_of_ne_zero hne
    rw [div_le_one (by norm_num : (0:ℚ) < 255), div_le_iff₀ hlenpos]
    calc (bins.sum : ℚ) ≤ (bins.length : ℚ) * 255 := by exact_mod_cast hsum
      _ = 255 * (bins.length : ℚ) := by ring

theorem bandVal_zero (bins : List ℕ) (h : ∀ b ∈ bins, b = 0) : bandVal bins = 0 := by
  unfold bandVal
  have hsum : bins.sum = 0 := List.sum_eq_zero h
  split
  · norm_num
  · rw [hsum]
    norm_num

theorem computeBands_bounds (dataArr : List ℕ) (h : ∀ b ∈ dataArr, b ≤ 255) :
    (0 ≤ (computeBands dataArr).1 ∧ (computeBands dataArr).1 ≤ 1) ∧
    (0 ≤ (computeBands dataArr).2.1 ∧ (computeBands dataArr).2.1 ≤ 1) ∧
    (0 ≤ (computeBands dataArr).2.2.1 ∧ (computeBands dataArr).2.2.1 ≤ 1) ∧
    (0 ≤ (computeBands dataArr).2.2.2 ∧ (computeBands dataArr).2.2.2 ≤ 1) := by
  by_cases hlen : dataArr.length = 0
  · simp only [computeBands, hlen, if_pos]
    norm_num
  · simp only [computeBands, if_neg hlen]
    refine ⟨⟨bandVal_nonneg _, bandVal_le_one _ ?_⟩, ⟨bandVal_nonneg _, bandVal_le_one _ ?_⟩,
      ⟨bandVal_nonneg _, bandVal_le_one _ ?_⟩, ⟨bandVal_nonneg _, bandVal_le_one _ ?_⟩⟩
    · intro b hb
      exact h b (List.take_subset _ _ hb)
    · intro b hb
      exact h b (List.drop_subset _ _ (List.take_subset _ _ hb))
    · intro b hb
      exact h b (List.drop_subset _ _ (List.take_subset _ _ hb))
    · intro b hb
      exact h b (List.drop_subset _ _ hb)

theorem computeBands_zero (dataArr : List ℕ) (h : ∀ b ∈ dataArr, b = 0) :
    computeBands dataArr = (0, 0, 0, 0) := by
  by_cases hlen : dataArr.length = 0
  · simp only [computeBands, hlen, if_pos]
  · simp only [computeBands, if_neg hlen]
    rw [bandVal_zero _ (fun b hb => h b (List.take_subset _ _ hb)),
      bandVal_zero _ (fun b hb => h b (List.drop_subset _ _ (List.take_subset _ _ hb))),
      bandVal_zero _ (fun b hb => h b (List.drop_subset _ _ (List.take_subset _ _ hb))),
      bandVal_zero _ (fun b hb => h b (List.drop_subset _ _ hb))]

/-- One `sample` step preserves the state invariant (for valid inputs). -/
theorem sampleFeatures_inv (s : FeatState) (dataArr : List ℕ) (sens : ℚ)
    (hd : ∀ b ∈ dataArr, b ≤ 255) (h0 : 0 ≤ sens) (h1 : sens ≤ 1) (hs : FeatInv s) :
    FeatInv (sampleFeatures s dataArr sens).1 := by
  obtain ⟨_hplm0, _hplm1, _hpb0, _hpb1, hbe0, hbe1, hte0, hte1, _hmp0, _hmp1, _hbh0, _hbh1⟩ := hs
  obtain ⟨⟨hb0, hb1⟩, ⟨hl0, hl1⟩, ⟨hh0, hh1⟩, ⟨ht0, ht1⟩⟩ := computeBands_bounds dataArr hd
  have hbt0 : (0:ℚ) ≤ clampQ ((computeBands dataArr).1 * ((40/100) + sens * (280/100))) 0 1 :=
    clampQ_lo_le _ _ _
  have hbt1 : clampQ ((computeBands dataArr).1 * ((40/100) + sens * (280/100))) 0 1 ≤ 1 :=
    clampQ_le_hi _ _ _ (by norm_num)
  have htt0 : (0:ℚ) ≤ clampQ ((computeBands dataArr).2.2.2 * ((40/100) + sens * (280/100))) 0 1 :=
    clampQ_lo_le _ _ _
  have htt1 : clampQ ((computeBands dataArr).2.2.2 * ((40/100) + sens * (280/100))) 0 1 ≤ 1 :=
    clampQ_le_hi _ _ _ (by norm_num)
  simp only [sampleFeatures]
  unfold FeatInv
  refine ⟨hl0, hl1, hb0, hb1, by linarith, by linarith, by linarith, by linarith,
    clampQ_lo_le _ _ _, clampQ_le_hi _ _ _ (by norm_num),
    clampQ_lo_le _ _ _, clampQ_le_hi _ _ _ (by norm_num)⟩

/-- The returned frame values are always inside their clamp ranges. -/
theorem sampleFeatures_out_bounds (s : FeatState) (dataArr : List ℕ) (sens : ℚ) :
    0 ≤ (sampleFeatures s dataArr sens).2.bassEnvOut ∧
    (sampleFeatures s dataArr sens).2.bassEnvOut ≤ 1 ∧
    0 ≤ (sampleFeatures s dataArr sens).2.trebleEnvOut ∧
    (sampleFeatures s dataArr sens).2.trebleEnvOut ≤ 1 ∧
    0 ≤ (sampleFeatures s dataArr sens).1.midPulse ∧
    (sampleFeatures s dataArr sens).1.midPulse ≤ 3/2 ∧
    0 ≤ (sampleFeatures s dataArr sens).2.bassHitOut ∧
    (sampleFeatures s dataArr sens).2.bassHitOut ≤ 5/4 ∧
    (sampleFeatures s dataArr sens).2.bassHitOut ≤ 27/20 := by
  simp only [sampleFeatures]
  refine ⟨clampQ_lo_le _ _ _, clampQ_le_hi _ _ _ (by norm_num),
    clampQ_lo_le _ _ _, clampQ_le_hi _ _ _ (by norm_num),
    clampQ_lo_le _ _ _, clampQ_le_hi _ _ _ (by norm_num),
    clampQ_lo_le _ _ _, clampQ_le_hi _ _ _ (by norm_num), ?_⟩
  have := clampQ_le_hi (s.bassHit * (86/100) +
    ((max 0 ((computeBands dataArr).1 - s.prevBass)) * (10 + sens * 20)) * (22/100)) 0 (5/4)
    (by norm_num)
  linarith

/-- On an all-zero snapshot the pulse and hit values decay geometrically. -/
theorem sampleFeatures_zero_decay (s : FeatState) (dataArr : List ℕ) (sens : ℚ)
    (hz : ∀ b ∈ dataArr, b = 0) (hs : FeatInv s) :
    (sampleFeatures s dataArr sens).1.midPulse = s.midPulse * (88/100) ∧
    (sampleFeatures s dataArr sens).1.bassHit = s.bassHit * (86/100) ∧
    (sampleFeatures s dataArr sens).1.midPulse ≤ s.midPulse ∧
    (sampleFeatures s dataArr sens).1.bassHit ≤ s.bassHit := by
  obtain ⟨hplm0, _hplm1, hpb0, _hpb1, _hbe0, _hbe1, _hte0, _hte1, hmp0, hmp1, hbh0, hbh1⟩ := hs
  have hbands := computeBands_zero dataArr hz
  simp only [sampleFeatures, hbands]
  have hraw : max 0 ((0 - s.prevLowMid) * 9) = 0 := max_eq_left (by nlinarith)
  have hhit : max 0 (0 - s.prevBass) = 0 := max_eq_left (by linarith)
  rw [hraw, hhit]
  have hmp : clampQ (s.midPulse * (88/100) + 0 * (12/100)) 0 (3/2) = s.midPulse * (88/100) := by
    rw [show s.midPulse * (88/100) + 0 * (12/100) = s.midPulse * (88/100) by ring]
    exact clampQ_eq_self _ _ _ (by linarith) (by linarith)
  have hbh : clampQ (s.bassHit * (86/100) + 0 * (10 + sens * 20) * (22/100)) 0 (5/4) =
      s.bassHit * (86/100) := by
    rw [show s.bassHit * (86/100) + 0 * (10 + sens * 20) * (22/100) = s.bassHit * (86/100) by ring]
    exact clampQ_eq_self _ _ _ (by linarith) (by linarith)
  rw [hmp, hbh]
  exact ⟨rfl, rfl, by linarith, by linarith⟩

theorem initFeatState_inv : FeatInv initFeatState := by
  unfold FeatInv initFeatState
  norm_num

theorem foldFeatures_inv (l : List (List ℕ × ℚ)) :
    ∀ s : FeatState, FeatInv s → (∀ inp ∈ l, ValidInput inp) →
      FeatInv (l.foldl (fun s2 inp => (sampleFeatures s2 inp.1 inp.2).1) s) := by
  induction l with
  | nil =>
      intro s hs _
      simpa using hs
  | cons a t ih =>
      intro s hs hv
      simp only [List.foldl_cons]
      have hva := hv a (by simp)
      apply ih
      · exact sampleFeatures_inv s a.1 a.2 hva.1 hva.2.1 hva.2.2 hs
      · intro inp hinp
        exact hv inp (by simp [hinp])

theorem runFeatures_inv (inputs : List (List ℕ × ℚ))
    (hv : ∀ inp ∈ inputs, ValidInput inp) : FeatInv (runFeatures inputs) :=
  foldFeatures_inv inputs initFeatState initFeatState_inv hv

/-- Claim C8: starting from the zero initial state, for every sequence of
valid frequency snapshots (bins in [0,255]) and sensitivities in [0,1], after
each `AudioFeatures.sample` call the returned bass/treble envelopes lie in
[0,1], the stored midPulse lies in [0,1.5], and the returned bassHit lies in
[0,1.25] ⊆ [0,~1.35]; none of these is ever negative, and on an all-zero
snapshot the pulse and hit values decay geometrically toward 0 (factors 0.88
and 0.86). -/
theorem c8_envelope_boundedness (inputs : List (List ℕ × ℚ)) (dataArr : List ℕ) (sens : ℚ)
    (hv : ∀ inp ∈ inputs, ValidInput inp) (hd : ∀ b ∈ dataArr, b ≤ 255)
    (hs0 : 0 ≤ sens) (hs1 : sens ≤ 1) :
    FeatInv (runFeatures inputs) ∧
    (0 ≤ (sampleFeatures (runFeatures inputs) dataArr sens).2.bassEnvOut ∧
     (sampleFeatures (runFeatures inputs) dataArr sens).2.bassEnvOut ≤ 1 ∧
     0 ≤ (sampleFeatures (runFeatures inputs) dataArr sens).2.trebleEnvOut ∧
     (sampleFeatures (runFeatures inputs) dataArr sens).2.trebleEnvOut ≤ 1 ∧
     0 ≤ (sampleFeatures (runFeatures inputs) dataArr sens).1.midPulse ∧
     (sampleFeatures (runFeatures inputs) dataArr sens).1.midPulse ≤ 3/2 ∧
     0 ≤ (sampleFeatures (runFeatures inputs) dataArr sens).2.bassHitOut ∧
     (sampleFeatures (runFeatures inputs) dataArr sens).2.bassHitOut ≤ 5/4 ∧
     (sampleFeatures (runFeatures inputs) dataArr sens).2.bassHitOut ≤ 27/20) ∧
    ((∀ b ∈ dataArr, b = 0) →
      (sampleFeatures (runFeatures inputs) dataArr sens).1.midPulse =
        (runFeatures inputs).midPulse * (88/100) ∧
      (sampleFeatures (runFeatures inputs) dataArr sens).1.bassHit =
        (runFeatures inputs).bassHit * (86/100) ∧
      (sampleFeatures (runFeatures inputs) dataArr sens).1.midPulse ≤
        (runFeatures inputs).midPulse ∧
      (sampleFeatures (runFeatures inputs) dataArr sens).1.bassHit ≤
        (runFeatures inputs).bassHit) := by
  have hinv := runFeatures_inv inputs hv
  exact ⟨hinv, sampleFeatures_out_bounds _ _ _,
    fun hz => sampleFeatures_zero_decay _ _ _ hz hinv⟩

theorem c8_envelope_boundedness_witness :
    (∀ inp ∈ [([100, 200], (1:ℚ)/2)], ValidInput inp) ∧
    (∀ b ∈ [0, 0], b ≤ 255) ∧ ((0:ℚ) ≤ 1/2) ∧ ((1:ℚ)/2 ≤ 1) ∧
    (FeatInv (runFeatures [([100, 200], (1:ℚ)/2)]) ∧
     (0 ≤ (sampleFeatures (runFeatures [([100, 200], (1:ℚ)/2)]) [0, 0] (1/2)).2.bassEnvOut ∧
      (sampleFeatures (runFeatures [([100, 200], (1:ℚ)/2)]) [0, 0] (1/2)).2.bassEnvOut ≤ 1 ∧
      0 ≤ (sampleFeatures (runFeatures [([100, 200], (1:ℚ)/2)]) [0, 0] (1/2)).2.trebleEnvOut ∧
      (sampleFeatures (runFeatures [([100, 200], (1:ℚ)/2)]) [0, 0] (1/2)).2.trebleEnvOut ≤ 1 ∧
      0 ≤ (sampleFeatures (runFeatures [([100, 200], (1:ℚ)/2)]) [0, 0] (1/2)).1.midPulse ∧
      (sampleFeatures (runFeatures [([100, 200], (1:ℚ)/2)]) [0, 0] (1/2)).1.midPulse ≤ 3/2 ∧
      0 ≤ (sampleFeatures (runFeatures [([100, 200], (1:ℚ)/2)]) [0, 0] (1/2)).2.bassHitOut ∧
      (sampleFeatures (runFeatures [([100, 200], (1:ℚ)/2)]) [0, 0] (1/2)).2.bassHitOut ≤ 5/4 ∧
      (sampleFeatures (runFeatures [([100, 200], (1:ℚ)/2)]) [0, 0] (1/2)).2.bassHitOut ≤ 27/20) ∧
     ((∀ b ∈ [0, 0], b = 0) →
       (sampleFeatures (runFeatures [([100, 200], (1:ℚ)/2)]) [0, 0] (1/2)).1.midPulse =
         (runFeatures [([100, 200], (1:ℚ)/2)]).midPulse * (88/100) ∧
       (sampleFeatures (runFeatures [([100, 200], (1:ℚ)/2)]) [0, 0] (1/2)).1.bassHit =
         (runFeatures [([100, 200], (1:ℚ)/2)]).bassHit * (86/100) ∧
       (sampleFeatures (runFeatures [([100, 200], (1:ℚ)/2)]) [0, 0] (1/2)).1.midPulse ≤
         (runFeatures [([100, 200], (1:ℚ)/2)]).midPulse ∧
       (sampleFeatures (runFeatures [([100, 200], (1:ℚ)/2)]) [0, 0] (1/2)).1.bassHit ≤
         (runFeatures [([100, 200], (1:ℚ)/2)]).bassHit)) := by
  have hv : ∀ inp ∈ [([100, 200], (1:ℚ)/2)], ValidInput inp := by
    intro inp hinp
    simp only [List.mem_singleton] at hinp
    subst hinp
    refine ⟨by decide, by norm_num, by norm_num⟩
  have hd : ∀ b ∈ [0, 0], b ≤ 255 := by decide
  exact ⟨hv, hd, by norm_num, by norm_num,
    c8_envelope_boundedness [([100, 200], (1:ℚ)/2)] [0, 0] (1/2) hv hd (by norm_num) (by norm_num)⟩

/-! ### Claim C9 (smoothing caches, corrected) -/

/-- Claim C9 (amended): before each deformation pass the caches are sized to
the current point count — a fresh zero-filled array is allocated when the
cache is missing or its length differs from the point count, and otherwise
the existing per-index contents are kept; the rebuild path
(`onNewAudio → createGalaxyFromNeuralMap → _commitStars`) does not touch the
caches, and only mode re-entry (a fresh constructor) nulls them.  So a rebuild
that changes the point count gets fresh caches, while a rebuild that keeps the
point count reuses the previous structure's per-index smoothing state. -/
theorem c9_caches_amended :
    (∀ (c : Option (List ℚ)) (count : ℕ),
      (ensureCache c count).length = count ∧
      (∀ l, c = some l → l.length = count → ensureCache c count = l) ∧
      (∀ l, c = some l → l.length ≠ count → ensureCache c count = List.replicate count 0) ∧
      (c = none → ensureCache c count = List.replicate count 0)) ∧
    (∀ (s : GalaxyCacheState) (newBase : List (ℚ × ℚ × ℚ)),
      (galaxyRebuild s newBase).phiCache = s.phiCache ∧
      (galaxyRebuild s newBase).rCache = s.rCache ∧
      (galaxyRebuild s newBase).basePositions = newBase) ∧
    (∀ base, (galaxyInitCaches base).phiCache = none ∧ (galaxyInitCaches base).rCache = none) ∧
    (∀ s, (updateStarsCaches s).1 = ensureCache s.phiCache s.basePositions.length ∧
      (updateStarsCaches s).2 = ensureCache s.rCache s.basePositions.length) := by
  refine ⟨?_, fun s newBase => ⟨rfl, rfl, rfl⟩, fun base => ⟨rfl, rfl⟩, fun s => ⟨rfl, rfl⟩⟩
  intro c count
  refine ⟨?_, ?_, ?_, ?_⟩
  · match c with
    | none => simp [ensureCache]
    | some l =>
        by_cases h : l.length = count
        · simp [ensureCache, h]
        · simp [ensureCache, h]
  · intro l hc hlen
    subst hc
    simp [ensureCache, hlen]
  · intro l hc hlen
    subst hc
    simp [ensureCache, hlen]
  · intro hc
    subst hc
    simp [ensureCache]

theorem c9_caches_amended_witness :
    ensureCache (some [(5:ℚ)]) 1 = [(5:ℚ)] ∧ (ensureCache none 2).length = 2 :=
  ⟨(c9_caches_amended.1 (some [(5:ℚ)]) 1).2.1 [(5:ℚ)] rfl (by simp),
   (c9_caches_amended.1 none 2).1⟩

set_option maxRecDepth 8000 in
/-- Claim C9 counterexample: the caches are NOT reset on a structure rebuild
that keeps the point count.  After rebuilding onto 900 fresh base positions,
the next deformation pass reads the previous structure's phi cache (here all
3's, a value a previous structure's smoothing could have produced), not a
fresh zero array, and the per-point smoothing step therefore computes a
different phi than it would from a reset cache. -/
theorem c9_stale_cache_counterexample :
    (updateStarsCaches (galaxyRebuild
        { basePositions := List.replicate 900 ((0:ℚ), (0:ℚ), (0:ℚ)),
          phiCache := some (List.replicate 900 (3:ℚ)),
          rCache := some (List.replicate 900 (120:ℚ)) }
        (List.replicate 900 ((1:ℚ), (2:ℚ), (3:ℚ))))).1 =
      List.replicate 900 (3:ℚ) ∧
    List.replicate 900 (3:ℚ) ≠ List.replicate 900 (0:ℚ) ∧
    phiSmoothStep ((List.replicate 900 (3:ℚ)).getD 0 0) (1/2) (1/2) ≠
      phiSmoothStep ((List.replicate 900 (0:ℚ)).getD 0 0) (1/2) (1/2) := by
  have hget3 : (List.replicate 900 (3:ℚ)).getD 0 0 = 3 := by
    rw [show (900:ℕ) = 899 + 1 from rfl, List.replicate_succ]
    rfl
  have hget0 : (List.replicate 900 (0:ℚ)).getD 0 0 = 0 := by
    rw [show (900:ℕ) = 899 + 1 from rfl, List.replicate_succ]
    rfl
  refine ⟨?_, ?_, ?_⟩
  · show ensureCache (some (List.replicate 900 (3:ℚ)))
        (List.replicate 900 ((1:ℚ), (2:ℚ), (3:ℚ))).length = List.replicate 900 (3:ℚ)
    rw [List.length_replicate]
    show (if (List.replicate 900 (3:ℚ)).length = 900 then List.replicate 900 (3:ℚ)
        else List.replicate 900 0) = List.replicate 900 (3:ℚ)
    rw [if_pos (by rw [List.length_replicate])]
  · intro h
    have h2 := congrArg (fun l => l.getD 0 (0:ℚ)) h
    simp only [hget3, hget0] at h2
    norm_num at h2
  · rw [hget3, hget0]
    unfold phiSmoothStep
    norm_num

/-! ### Claim C10 (empty node list degenerates to the neutral spiral) -/

theorem mkSpiralPoint_tier (jsin jcos : ℚ → ℚ) (armsCount n : ℕ) (h : ℤ) (i : ℕ) :
    (mkSpiralPoint jsin jcos armsCount n h i).2.tier = 1 := rfl

theorem createNeutralSpiral_points_eq (jsin jcos : ℚ → ℚ) (songHash : List ℕ) (n : ℕ) :
    (createNeutralSpiral jsin jcos songHash n).points =
      (List.range n).map (fun i => (mkSpiralPoint jsin jcos
        (chooseArmsCount (seedFold (if songHash = [] then natDigitsCodes n else songHash))).2 n
        (stIter (fun h j => (mkSpiralPoint jsin jcos
            (chooseArmsCount (seedFold (if songHash = [] then natDigitsCodes n
              else songHash))).2 n h j).1)
          (chooseArmsCount (seedFold (if songHash = [] then natDigitsCodes n
            else songHash))).1 i) i).2) :=
  congrArg Prod.snd
    (stFoldEq
      (fun h j => (mkSpiralPoint jsin jcos
        (chooseArmsCount (seedFold (if songHash = [] then natDigitsCodes n else songHash))).2
        n h j).1)
      (fun h j => (mkSpiralPoint jsin jcos
        (chooseArmsCount (seedFold (if songHash = [] then natDigitsCodes n else songHash))).2
        n h j).2)
      n
      (chooseArmsCount (seedFold (if songHash = [] then natDigitsCodes n else songHash))).1)

/-- Claim C10: building the galaxy structure from an empty node list yields a
non-empty neutral-spiral structure of the requested point count
`N = min(4000, max(900, 10 * 0)) = 900`, in which every point's shape tier
equals 1. -/
theorem c10_empty_list_neutral_spiral (jsin jcos jsqrt : ℚ → ℚ) (songHash : List ℕ) :
    createGalaxyFromNeuralMap jsin jcos jsqrt songHash [] =
      createNeutralSpiral jsin jcos songHash 900 ∧
    (900 : ℕ) = min 4000 (max 900 (([] : List MapNode).length * 10)) ∧
    (createGalaxyFromNeuralMap jsin jcos jsqrt songHash []).points.length = 900 ∧
    (createGalaxyFromNeuralMap jsin jcos jsqrt songHash []).points ≠ [] ∧
    (∀ p ∈ (createGalaxyFromNeuralMap jsin jcos jsqrt songHash []).points, p.tier = 1) := by
  have hbranch : createGalaxyFromNeuralMap jsin jcos jsqrt songHash [] =
      createNeutralSpiral jsin jcos songHash 900 := rfl
  have hlen : (createGalaxyFromNeuralMap jsin jcos jsqrt songHash []).points.length = 900 := by
    rw [hbranch, createNeutralSpiral_points_eq]
    simp
  refine ⟨hbranch, by norm_num, hlen, ?_, ?_⟩
  · intro hnil
    rw [hnil] at hlen
    simp at hlen
  · intro p hp
    rw [hbranch, createNeutralSpiral_points_eq] at hp
    simp only [List.mem_map, List.mem_range] at hp
    obtain ⟨i, _, rfl⟩ := hp
    rfl
